import Mathlib

/-!
# WS2812 status LED driver (OpenThread_Board_Router/main)

Shallow embedding of `ws2812.c` and `rcp_led_status.c`.

* `uint8_t` / `uint16_t` / `int` values are natural numbers; the casts of the
  source are written as explicit `% 2^w`.
* The file-scope statics of `ws2812.c` and the function-static flag of
  `led_init_once` are the fields of `State`.
* The RMT driver of ESP-IDF is not part of the repository.  Every call into it
  is recorded as an `Event` in `State.trace`, and its return code is supplied
  by a `Periph` environment.  `ESP_ERROR_CHECK` aborts on a non-zero code.
-/

namespace WS2812

/-! ## Data model -/

/-- One RMT pulse pair: level and duration (in ticks) of both halves. -/
structure rmt_symbol_word_t where
  level0 : Nat
  duration0 : Nat
  level1 : Nat
  duration1 : Nat
deriving DecidableEq

/-- Size in bytes of one `rmt_symbol_word_t` (a 32-bit word in ESP-IDF). -/
def sizeof_rmt_symbol_word_t : Nat := 4

def WS2812_GPIO : Nat := 27
def RMT_RES_HZ : Nat := 10 * 1000 * 1000
def T0H_TICKS : Nat := 4
def T0L_TICKS : Nat := 8
def T1H_TICKS : Nat := 7
def T1L_TICKS : Nat := 6
def RESET_US : Nat := 80
def LED_BRIGHTNESS : Nat := 32

/-- The value `ESP_OK` of `esp_err_t`. -/
def ESP_OK : Int := 0

/-- Calls into the peripheral layer, with the arguments the source passes. -/
inductive Event where
  | rmt_new_tx_channel (gpio_num resolution_hz mem_block_symbols trans_queue_depth : Nat)
  | rmt_new_copy_encoder
  | rmt_enable (chan : Nat)
  | rmt_transmit (chan enc : Nat) (payload : List rmt_symbol_word_t) (payload_bytes : Nat)
      (loop_count : Int)
  | rmt_tx_wait_all_done (chan : Nat) (timeout_ms : Nat)
  | esp_rom_delay_us (us : Nat)
deriving DecidableEq

/-- The peripheral layer as seen by the driver: the return code of each call
(which may depend on everything that happened before), the handle a successful
creation call stores, and the indeterminate initial content of the stack array
`symbols` of `ws2812_set`. -/
structure Periph where
  ret : List Event → Event → Int
  handle : List Event → Event → Nat
  uninit : List Event → Nat → rmt_symbol_word_t

/-- Process state: the statics of `ws2812.c`, the static flag of
`led_init_once`, and the peripheral calls made so far. -/
structure State where
  s_tx_chan : Nat
  s_copy_enc : Nat
  s_brightness : Nat
  s_inited : Bool
  inited : Bool
  trace : List Event

/-- State at process start: handles are null, brightness 255, both flags clear. -/
def State.initial : State :=
  { s_tx_chan := 0, s_copy_enc := 0, s_brightness := 255, s_inited := false,
    inited := false, trace := [] }

/-- Outcome of a call: it returns, or `ESP_ERROR_CHECK` aborts the process.
Both carry the state reached. -/
inductive Result where
  | ok (s : State)
  | abort (s : State)

/-- Sequencing: an abort ends the process, nothing after it runs. -/
def Result.bind (r : Result) (f : State → Result) : Result :=
  match r with
  | .ok s => f s
  | .abort s => .abort s

/-- State carried by an outcome. -/
def Result.state : Result → State
  | .ok s => s
  | .abort s => s

/-- Whether the call returned. -/
def Result.returned : Result → Bool
  | .ok _ => true
  | .abort _ => false

/-! ## ws2812.c -/

def sym0 : rmt_symbol_word_t :=
  { level0 := 1, duration0 := T0H_TICKS, level1 := 0, duration1 := T0L_TICKS }

def sym1 : rmt_symbol_word_t :=
  { level0 := 1, duration0 := T1H_TICKS, level1 := 0, duration1 := T1L_TICKS }

/-- Symbol memory addressed by index; `out[i] = v` is `store out i v`. -/
def store (out : Nat → rmt_symbol_word_t) (i : Nat) (v : rmt_symbol_word_t) :
    Nat → rmt_symbol_word_t :=
  fun j => if j = i then v else out j

/-- The loop of `encode_byte` from counter value `i` down to `0`; `out` is the
array the pointer points into and `off` the index the pointer points at. -/
def encode_byte_loop (off byte : Nat) :
    Nat → (Nat → rmt_symbol_word_t) → (Nat → rmt_symbol_word_t)
  | 0, out => store out (off + (7 - 0)) (if (byte >>> 0) &&& 1 ≠ 0 then sym1 else sym0)
  | i + 1, out =>
      encode_byte_loop off byte i
        (store out (off + (7 - (i + 1))) (if (byte >>> (i + 1)) &&& 1 ≠ 0 then sym1 else sym0))

/-- Embedding of `encode_byte(&out[off], byte)`. -/
def encode_byte (out : Nat → rmt_symbol_word_t) (off byte : Nat) : Nat → rmt_symbol_word_t :=
  encode_byte_loop off byte 7 out

/-- Embedding of `scale`: `(uint8_t)((v * (uint16_t)s_brightness) / 255)`. -/
def scale (s : State) (v : Nat) : Nat :=
  ((v * (s.s_brightness % 65536)) / 255) % 256

/-- A call into the peripheral layer: it is appended to the trace and its
return code is the one the environment gives for it after the calls so far. -/
def periph_call (env : Periph) (e : Event) (s : State) : Int × State :=
  (env.ret s.trace e, { s with trace := s.trace ++ [e] })

/-- The macro `ESP_ERROR_CHECK(x)`: abort unless `x` is `ESP_OK`. -/
def ESP_ERROR_CHECK (x : Int × State) : Result :=
  if x.1 = ESP_OK then .ok x.2 else .abort x.2

/-- The call `rmt_new_tx_channel(&tx_cfg, &s_tx_chan)`: on success the new handle is
stored in `s_tx_chan`. -/
def rmt_new_tx_channel (env : Periph) (gpio_num resolution_hz mem_block_symbols
    trans_queue_depth : Nat) (s : State) : Int × State :=
  let e := Event.rmt_new_tx_channel gpio_num resolution_hz mem_block_symbols trans_queue_depth
  let x := periph_call env e s
  if x.1 = ESP_OK then (x.1, { x.2 with s_tx_chan := env.handle s.trace e }) else x

/-- The call `rmt_new_copy_encoder(&enc_cfg, &s_copy_enc)`: on success the new handle is
stored in `s_copy_enc`. -/
def rmt_new_copy_encoder (env : Periph) (s : State) : Int × State :=
  let e := Event.rmt_new_copy_encoder
  let x := periph_call env e s
  if x.1 = ESP_OK then (x.1, { x.2 with s_copy_enc := env.handle s.trace e }) else x

/-- The call `rmt_enable(chan)`. -/
def rmt_enable (env : Periph) (chan : Nat) (s : State) : Int × State :=
  periph_call env (Event.rmt_enable chan) s

/-- The call `rmt_transmit(chan, enc, symbols, payload_bytes, &tx_conf)`: the copy
encoder is handed the `payload_bytes / sizeof(rmt_symbol_word_t)` symbol words
found at `symbols`. -/
def rmt_transmit (env : Periph) (chan enc : Nat) (symbols : Nat → rmt_symbol_word_t)
    (payload_bytes : Nat) (loop_count : Int) (s : State) : Int × State :=
  periph_call env
    (Event.rmt_transmit chan enc
      ((List.range (payload_bytes / sizeof_rmt_symbol_word_t)).map symbols)
      payload_bytes loop_count) s

/-- The call `rmt_tx_wait_all_done(chan, pdMS_TO_TICKS(timeout_ms))`; the timeout is
recorded in milliseconds, as written in the source. -/
def rmt_tx_wait_all_done (env : Periph) (chan timeout_ms : Nat) (s : State) : Int × State :=
  periph_call env (Event.rmt_tx_wait_all_done chan timeout_ms) s

/-- The call `esp_rom_delay_us(us)`; it returns nothing and cannot fail. -/
def esp_rom_delay_us (us : Nat) (s : State) : State :=
  { s with trace := s.trace ++ [Event.esp_rom_delay_us us] }

/-- Embedding of `ws2812_init`. -/
def ws2812_init (env : Periph) (s : State) : Result :=
  (ESP_ERROR_CHECK (rmt_new_tx_channel env WS2812_GPIO RMT_RES_HZ 64 4 s)).bind fun s =>
  (ESP_ERROR_CHECK (rmt_new_copy_encoder env s)).bind fun s =>
  (ESP_ERROR_CHECK (rmt_enable env s.s_tx_chan s)).bind fun s =>
  .ok { s with s_inited := true }

/-- Lines 86-91 of `ws2812_set`: the array `symbols` after the three
`encode_byte` calls, starting from the indeterminate content `symbols0`. -/
def build_symbols (s : State) (symbols0 : Nat → rmt_symbol_word_t) (r g b : Nat) :
    Nat → rmt_symbol_word_t :=
  let grb0 := scale s g
  let grb1 := scale s r
  let grb2 := scale s b
  let symbols := encode_byte symbols0 0 grb0
  let symbols := encode_byte symbols 8 grb1
  encode_byte symbols 16 grb2

/-- Embedding of `ws2812_set`. -/
def ws2812_set (env : Periph) (r g b : Nat) (s : State) : Result :=
  (if !s.s_inited then ws2812_init env s else .ok s).bind fun s =>
  let symbols := build_symbols s (env.uninit s.trace) r g b
  (ESP_ERROR_CHECK
    (rmt_transmit env s.s_tx_chan s.s_copy_enc symbols (24 * sizeof_rmt_symbol_word_t) 0 s)).bind
  fun s =>
  (ESP_ERROR_CHECK (rmt_tx_wait_all_done env s.s_tx_chan 50 s)).bind fun s =>
  .ok (esp_rom_delay_us RESET_US s)

/-- Embedding of `ws2812_set_brightness`. -/
def ws2812_set_brightness (brightness : Nat) (s : State) : State :=
  { s with s_brightness := brightness }

/-! ## rcp_led_status.c -/

/-- Embedding of `led_init_once`. -/
def led_init_once (env : Periph) (s : State) : Result :=
  if !s.inited then
    (ws2812_init env s).bind fun s =>
    let s := ws2812_set_brightness LED_BRIGHTNESS s
    .ok { s with inited := true }
  else .ok s

/-- Embedding of `rcp_led_boot`. -/
def rcp_led_boot (env : Periph) (s : State) : Result :=
  (led_init_once env s).bind fun s => ws2812_set env 255 0 0 s

/-- Embedding of `rcp_led_ready`. -/
def rcp_led_ready (env : Periph) (s : State) : Result :=
  (led_init_once env s).bind fun s => ws2812_set env 0 255 0 s

/-! ## Call sequences -/

/-- A call of one of the public operations. -/
inductive Op where
  | init
  | set (r g b : Nat)
  | set_brightness (x : Nat)
  | boot
  | ready
deriving DecidableEq

/-- Run one public operation. -/
def step (env : Periph) : Op → State → Result
  | .init, s => ws2812_init env s
  | .set r g b, s => ws2812_set env r g b s
  | .set_brightness x, s => .ok (ws2812_set_brightness x s)
  | .boot, s => rcp_led_boot env s
  | .ready, s => rcp_led_ready env s

/-- Run a sequence of public operations; an abort ends the run. -/
def run (env : Periph) : List Op → State → Result
  | [], s => .ok s
  | op :: rest, s => (step env op s).bind (run env rest)

/-! ## Observations used by the statements -/

/-- An environment in which every peripheral call succeeds. -/
def Periph.allOk (env : Periph) : Prop := ∀ h e, env.ret h e = ESP_OK

/-- A concrete environment: every call succeeds, handles are numbered by the
position of the creating call, the stack array starts zeroed. -/
def okPeriph : Periph :=
  { ret := fun _ _ => ESP_OK
    handle := fun h _ => h.length + 1
    uninit := fun _ _ => { level0 := 0, duration0 := 0, level1 := 0, duration1 := 0 } }

/-- A concrete environment in which every call fails with code `-1`. -/
def failPeriph : Periph :=
  { ret := fun _ _ => -1
    handle := fun h _ => h.length + 1
    uninit := fun _ _ => { level0 := 0, duration0 := 0, level1 := 0, duration1 := 0 } }

/-- The `rmt_new_tx_channel` call of `ws2812_init`, with the configuration it passes. -/
def tx_channel_call : Event := Event.rmt_new_tx_channel WS2812_GPIO RMT_RES_HZ 64 4

/-- The `rmt_transmit` call `ws2812_set(r, g, b)` makes when reaching line 97 in state `s`. -/
def transmit_call (env : Periph) (s : State) (r g b : Nat) : Event :=
  Event.rmt_transmit s.s_tx_chan s.s_copy_enc
    ((List.range 24).map (build_symbols s (env.uninit s.trace) r g b)) 96 0

def Event.is_new_tx_channel : Event → Bool
  | .rmt_new_tx_channel _ _ _ _ => true
  | _ => false

def Event.is_new_copy_encoder : Event → Bool
  | .rmt_new_copy_encoder => true
  | _ => false

def Event.is_enable : Event → Bool
  | .rmt_enable _ => true
  | _ => false

/-- The three kinds of setup call made by `ws2812_init`. -/
def setup_kind (p : Event → Bool) : Prop :=
  p = Event.is_new_tx_channel ∨ p = Event.is_new_copy_encoder ∨ p = Event.is_enable

/-- A call of the status facade. -/
def Op.is_facade : Op → Bool
  | .boot => true
  | .ready => true
  | _ => false

/-- A call that returns with the driver initialized (all but `ws2812_set_brightness`). -/
def Op.sets_inited : Op → Bool
  | .set_brightness _ => false
  | _ => true

/-- Whether the first call of a sequence other than `ws2812_set_brightness` is a
`ws2812_set`. -/
def lazy_first : List Op → Bool
  | [] => false
  | .set_brightness _ :: rest => lazy_first rest
  | .set _ _ _ :: _ => true
  | _ :: _ => false

/-- Count of setup runs read off a call sequence started with the driver flag
`si` and the facade flag `fi`: one per direct `ws2812_init`, one if the facade
flag is clear and the sequence has a facade call, one if the driver flag is
clear and the first call other than `ws2812_set_brightness` is a `ws2812_set`. -/
def setups_from (si fi : Bool) (ops : List Op) : Nat :=
  ops.count Op.init + (if !fi && ops.any Op.is_facade then 1 else 0) +
    (if !si && lazy_first ops then 1 else 0)

/-- Count of setup runs read off a call sequence started at process start. -/
def expected_setups (ops : List Op) : Nat := setups_from false false ops

/-- The color set a facade call performs after its one-time setup. -/
def color_set : Op → Op
  | .boot => .set 255 0 0
  | .ready => .set 0 255 0
  | op => op

/-- The symbols handed to the transmitter by an event, if it is a transmit. -/
def Event.frame : Event → Option (List rmt_symbol_word_t)
  | .rmt_transmit _ _ payload _ _ => some payload
  | _ => none

/-- The frames handed to the transmitter along a trace, in order. -/
def frames (t : List Event) : List (List rmt_symbol_word_t) :=
  t.filterMap Event.frame

/-- The eight symbols `encode_byte` leaves at its pointer, read back. -/
def encoded (byte : Nat) : List rmt_symbol_word_t :=
  (List.range 8).map (encode_byte (fun _ => sym0) 0 byte)

/-- Frame of three bytes as the protocol describes it: for each byte in turn,
bit 7 down to bit 0, a set bit as high 7 / low 6 ticks and a clear bit as
high 4 / low 8 ticks. -/
def grb_frame (x y z : Nat) : List rmt_symbol_word_t :=
  [x, y, z].flatMap fun byte =>
    (List.range 8).map fun k =>
      if byte.testBit (7 - k) then
        { level0 := 1, duration0 := 7, level1 := 0, duration1 := 6 }
      else
        { level0 := 1, duration0 := 4, level1 := 0, duration1 := 8 }

/-- The frame a facade call is claimed to transmit: GRB bytes (0, 32, 0) for
`rcp_led_boot`, (32, 0, 0) for `rcp_led_ready`. -/
def facade_frame : Op → List rmt_symbol_word_t
  | .boot => grb_frame 0 32 0
  | .ready => grb_frame 32 0 0
  | _ => []

/-- Receiver side: read one symbol as a bit by its (high, low) durations. -/
def decode_symbol (w : rmt_symbol_word_t) : Option Nat :=
  if w.duration0 = 7 ∧ w.duration1 = 6 then some 1
  else if w.duration0 = 4 ∧ w.duration1 = 8 then some 0
  else none

/-- Receiver side: assemble bits most significant first onto `acc`. -/
def decode_bits : List rmt_symbol_word_t → Nat → Option Nat
  | [], acc => some acc
  | w :: ws, acc =>
    match decode_symbol w with
    | some bit => decode_bits ws (2 * acc + bit)
    | none => none

/-- Receiver side: a frame of 24 symbols read as three bytes. -/
def decode_frame (f : List rmt_symbol_word_t) : Option (Nat × Nat × Nat) :=
  if f.length = 24 then
    match decode_bits (f.take 8) 0, decode_bits ((f.drop 8).take 8) 0,
      decode_bits (f.drop 16) 0 with
    | some x, some y, some z => some (x, y, z)
    | _, _, _ => none
  else none

/-- A concrete environment in which the peripheral call number `n` (counting
from 0) fails with code `-1` and every other call succeeds. -/
def failAtPeriph (n : Nat) : Periph :=
  { ret := fun h _ => if h.length = n then -1 else ESP_OK
    handle := fun h _ => h.length + 1
    uninit := fun _ _ => { level0 := 0, duration0 := 0, level1 := 0, duration1 := 0 } }

/-- A well-formed pulse: first half at level 1, second half at level 0, and
(high, low) durations either (4, 8) or (7, 6) ticks. -/
def well_formed (w : rmt_symbol_word_t) : Prop :=
  w.level0 = 1 ∧ w.level1 = 0 ∧
    ((w.duration0 = 4 ∧ w.duration1 = 8) ∨ (w.duration0 = 7 ∧ w.duration1 = 6))

/-- A public call that executes no `ws2812_set_brightness` when entered with the
facade flag `fi`: `ws2812_init`, `ws2812_set`, and a facade call whose one-time
setup (which stores brightness 32) is already done. -/
def Op.keeps_brightness (fi : Bool) : Op → Bool
  | .set_brightness _ => false
  | .boot => fi
  | .ready => fi
  | _ => true

/-! ## Bit encoding and scaling: helper lemmas -/

theorem shift_and_one_iff (x i : Nat) : ((x >>> i) &&& 1 ≠ 0) ↔ x.testBit i = true := by
  unfold Nat.testBit
  rw [Nat.land_comm]
  simp

theorem bit_symbol (x i : Nat) :
    (if (x >>> i) &&& 1 ≠ 0 then sym1 else sym0) = if x.testBit i then sym1 else sym0 := by
  by_cases h : x.testBit i = true
  · rw [if_pos ((shift_and_one_iff x i).2 h), if_pos h]
  · rw [if_neg (fun h2 => h ((shift_and_one_iff x i).1 h2)), if_neg h]

/-- What `encode_byte` leaves at every index of the array. -/
theorem encode_byte_apply (out : Nat → rmt_symbol_word_t) (off x j : Nat) :
    encode_byte out off x j =
      if off ≤ j ∧ j < off + 8 then (if x.testBit (7 - (j - off)) then sym1 else sym0)
      else out j := by
  simp only [encode_byte, encode_byte_loop, store, bit_symbol]
  by_cases h : off ≤ j ∧ j < off + 8
  · obtain ⟨k, rfl⟩ : ∃ k, j = off + k := ⟨j - off, by omega⟩
    have hk : k < 8 := by omega
    rw [if_pos h]
    interval_cases k <;> simp
  · rw [if_neg h]
    have hne : ∀ k, k < 8 → j ≠ off + k := by intro k hk; omega
    simp [hne]
    intro hj
    omega

theorem brightness_mod (s : State) (hb : s.s_brightness < 256) :
    s.s_brightness % 65536 = s.s_brightness :=
  Nat.mod_eq_of_lt (by omega)

theorem product_le (v c : Nat) (hv : v < 256) (hc : c < 256) : v * c ≤ 65025 :=
  Nat.mul_le_mul (show v ≤ 255 by omega) (show c ≤ 255 by omega)

theorem scale_eq (s : State) (v : Nat) (hv : v < 256) (hb : s.s_brightness < 256) :
    scale s v = v * s.s_brightness / 255 := by
  unfold scale
  have h2 := product_le v s.s_brightness hv hb
  rw [brightness_mod s hb]
  apply Nat.mod_eq_of_lt
  omega

theorem range_24 : List.range 24 =
    [0, 1, 2, 3, 4, 5, 6, 7, 8, 9, 10, 11, 12, 13, 14, 15, 16, 17, 18, 19, 20, 21, 22, 23] := by
  decide

theorem range_8 : List.range 8 = [0, 1, 2, 3, 4, 5, 6, 7] := by
  decide

theorem sym1_eq : sym1 = { level0 := 1, duration0 := 7, level1 := 0, duration1 := 6 } := rfl

theorem sym0_eq : sym0 = { level0 := 1, duration0 := 4, level1 := 0, duration1 := 8 } := rfl

theorem encoded_eq (x : Nat) :
    encoded x = (List.range 8).map fun k => if x.testBit (7 - k) then sym1 else sym0 := by
  simp [encoded, range_8, encode_byte_apply]

/-- The 24 symbols read back from `symbols` are the protocol frame of the three
scaled bytes in the order green, red, blue, whatever the array held before. -/
theorem build_symbols_frame (s : State) (u : Nat → rmt_symbol_word_t) (r g b : Nat) :
    (List.range 24).map (build_symbols s u r g b) =
      grb_frame (scale s g) (scale s r) (scale s b) := by
  simp [build_symbols, grb_frame, range_24, range_8, encode_byte_apply, sym1_eq, sym0_eq]

theorem grb_frame_encoded (x y z : Nat) :
    grb_frame x y z = encoded x ++ encoded y ++ encoded z := by
  simp [grb_frame, encoded_eq, range_8, sym1_eq, sym0_eq]

/-! ## Normal forms of the stateful operations -/

theorem ws2812_init_unfold (env : Periph) (s : State) :
    ws2812_init env s =
      if env.ret s.trace tx_channel_call = 0 then
        if env.ret (s.trace ++ [tx_channel_call]) Event.rmt_new_copy_encoder = 0 then
          if env.ret (s.trace ++ [tx_channel_call, Event.rmt_new_copy_encoder])
              (Event.rmt_enable (env.handle s.trace tx_channel_call)) = 0 then
            .ok { s with
              s_tx_chan := env.handle s.trace tx_channel_call
              s_copy_enc := env.handle (s.trace ++ [tx_channel_call]) Event.rmt_new_copy_encoder
              s_inited := true
              trace := s.trace ++ [tx_channel_call, Event.rmt_new_copy_encoder,
                Event.rmt_enable (env.handle s.trace tx_channel_call)] }
          else
            .abort { s with
              s_tx_chan := env.handle s.trace tx_channel_call
              s_copy_enc := env.handle (s.trace ++ [tx_channel_call]) Event.rmt_new_copy_encoder
              trace := s.trace ++ [tx_channel_call, Event.rmt_new_copy_encoder,
                Event.rmt_enable (env.handle s.trace tx_channel_call)] }
        else
          .abort { s with
            s_tx_chan := env.handle s.trace tx_channel_call
            trace := s.trace ++ [tx_channel_call, Event.rmt_new_copy_encoder] }
      else
        .abort { s with trace := s.trace ++ [tx_channel_call] } := by
  simp only [ws2812_init, ESP_ERROR_CHECK, rmt_new_tx_channel, rmt_new_copy_encoder, rmt_enable,
    periph_call, ESP_OK, tx_channel_call]
  split_ifs <;> simp_all [Result.bind]

theorem ws2812_init_ok_inited (env : Periph) (s s1 : State) (h : ws2812_init env s = .ok s1) :
    s1.s_inited = true := by
  rw [ws2812_init_unfold] at h
  split_ifs at h
  cases h
  rfl

theorem ws2812_set_of_inited (env : Periph) (r g b : Nat) (s : State) (h : s.s_inited = true) :
    ws2812_set env r g b s =
      if env.ret s.trace (transmit_call env s r g b) = 0 then
        if env.ret (s.trace ++ [transmit_call env s r g b])
            (Event.rmt_tx_wait_all_done s.s_tx_chan 50) = 0 then
          .ok { s with trace := s.trace ++ [transmit_call env s r g b,
            Event.rmt_tx_wait_all_done s.s_tx_chan 50, Event.esp_rom_delay_us 80] }
        else
          .abort { s with trace := s.trace ++ [transmit_call env s r g b,
            Event.rmt_tx_wait_all_done s.s_tx_chan 50] }
      else .abort { s with trace := s.trace ++ [transmit_call env s r g b] } := by
  simp only [ws2812_set, h, ESP_ERROR_CHECK, rmt_transmit, rmt_tx_wait_all_done, esp_rom_delay_us,
    periph_call, ESP_OK, RESET_US, transmit_call, sizeof_rmt_symbol_word_t]
  split_ifs <;> simp_all [Result.bind]

/-- From the uninitialized state `ws2812_set` is `ws2812_init` followed by
`ws2812_set`, as a whole outcome and for every environment. -/
theorem ws2812_set_lazy (env : Periph) (r g b : Nat) (s : State) (h : s.s_inited = false) :
    ws2812_set env r g b s = (ws2812_init env s).bind (ws2812_set env r g b) := by
  conv_lhs => unfold ws2812_set
  cases hr : ws2812_init env s with
  | ok s1 =>
    have h1 : s1.s_inited = true := ws2812_init_ok_inited env s s1 hr
    simp only [h, Result.bind, Bool.not_false, if_true, hr]
    unfold ws2812_set
    simp only [h1, Result.bind, Bool.not_true, Bool.false_eq_true, if_false]
  | abort s1 =>
    simp only [h, Result.bind, Bool.not_false, if_true, hr]

/-! ## Claims on `scale` and `encode_byte` -/

/-- C1: for a channel value `v` and a brightness in 0..255, `scale` returns exactly
`floor(v * brightness / 255)`; the product formed in `int` stays below `2^16`
(hence below `2^31`), the quotient is below 256 before the cast to `uint8_t`,
and the result is in 0..255. -/
theorem scale_is_floor_without_wrap (s : State) (v : Nat) (hv : v < 256)
    (hb : s.s_brightness < 256) :
    scale s v = v * s.s_brightness / 255 ∧
      v * (s.s_brightness % 65536) < 65536 ∧
      (v * (s.s_brightness % 65536)) / 255 < 256 ∧
      scale s v < 256 := by
  have h2 := product_le v s.s_brightness hv hb
  have h3 := scale_eq s v hv hb
  rw [brightness_mod s hb]
  refine ⟨h3, by omega, by omega, ?_⟩
  rw [h3]
  omega

theorem scale_is_floor_without_wrap_witness :
    (200 < 256 ∧ (ws2812_set_brightness 32 State.initial).s_brightness < 256) ∧
      (scale (ws2812_set_brightness 32 State.initial) 200 =
          200 * (ws2812_set_brightness 32 State.initial).s_brightness / 255 ∧
        200 * ((ws2812_set_brightness 32 State.initial).s_brightness % 65536) < 65536 ∧
        (200 * ((ws2812_set_brightness 32 State.initial).s_brightness % 65536)) / 255 < 256 ∧
        scale (ws2812_set_brightness 32 State.initial) 200 < 256) :=
  ⟨⟨by decide, by decide⟩,
    scale_is_floor_without_wrap (ws2812_set_brightness 32 State.initial) 200 (by decide)
      (by decide)⟩

/-- C3: `encode_byte(out, x)` writes exactly the eight symbols `out[0..7]`; the
`k`-th is the "1" symbol (level 1 for 7 ticks, level 0 for 6 ticks) when bit
`7 - k` of `x` is set and the "0" symbol (level 1 for 4 ticks, level 0 for
8 ticks) otherwise, so the byte goes out most significant bit first. -/
theorem encode_byte_msb_first (out : Nat → rmt_symbol_word_t) (off x : Nat) :
    (∀ k, k < 8 → encode_byte out off x (off + k) =
        if x.testBit (7 - k) then
          { level0 := 1, duration0 := 7, level1 := 0, duration1 := 6 }
        else
          { level0 := 1, duration0 := 4, level1 := 0, duration1 := 8 }) ∧
      (∀ j, (j < off ∨ off + 8 ≤ j) → encode_byte out off x j = out j) := by
  constructor
  · intro k hk
    rw [encode_byte_apply, if_pos (by omega)]
    have hk2 : off + k - off = k := by omega
    rw [hk2]
    rfl
  · intro j hj
    rw [encode_byte_apply, if_neg (by omega)]

theorem encode_byte_msb_first_witness :
    (2 < 8 ∧ encode_byte (okPeriph.uninit []) 8 165 (8 + 2) =
        { level0 := 1, duration0 := 7, level1 := 0, duration1 := 6 }) ∧
      ((3 < 8 ∨ 8 + 8 ≤ 3) ∧
        encode_byte (okPeriph.uninit []) 8 165 3 = okPeriph.uninit [] 3) :=
  ⟨⟨by decide, (encode_byte_msb_first (okPeriph.uninit []) 8 165).1 2 (by decide)⟩,
    ⟨by decide, (encode_byte_msb_first (okPeriph.uninit []) 8 165).2 3 (by decide)⟩⟩

/-- C9: for a channel value `v` and a brightness in 0..255, `scale(v) <= v`. -/
theorem scale_le_input (s : State) (v : Nat) (hv : v < 256) (hb : s.s_brightness < 256) :
    scale s v ≤ v := by
  rw [scale_eq s v hv hb]
  have h : v * s.s_brightness ≤ v * 255 := Nat.mul_le_mul_left v (by omega)
  omega

theorem scale_le_input_witness :
    (200 < 256 ∧ (ws2812_set_brightness 32 State.initial).s_brightness < 256) ∧
      scale (ws2812_set_brightness 32 State.initial) 200 ≤ 200 :=
  ⟨⟨by decide, by decide⟩,
    scale_le_input (ws2812_set_brightness 32 State.initial) 200 (by decide) (by decide)⟩

theorem ws2812_init_allOk (env : Periph) (hok : env.allOk) (s : State) :
    ws2812_init env s =
      .ok { s with
        s_tx_chan := env.handle s.trace tx_channel_call
        s_copy_enc := env.handle (s.trace ++ [tx_channel_call]) Event.rmt_new_copy_encoder
        s_inited := true
        trace := s.trace ++ [tx_channel_call, Event.rmt_new_copy_encoder,
          Event.rmt_enable (env.handle s.trace tx_channel_call)] } := by
  have h0 : ∀ h e, env.ret h e = 0 := hok
  rw [ws2812_init_unfold]
  simp only [h0, if_true]

theorem ws2812_set_allOk (env : Periph) (hok : env.allOk) (r g b : Nat) (s : State)
    (h : s.s_inited = true) :
    ws2812_set env r g b s =
      .ok { s with trace := s.trace ++ [transmit_call env s r g b,
        Event.rmt_tx_wait_all_done s.s_tx_chan 50, Event.esp_rom_delay_us 80] } := by
  have h0 : ∀ h e, env.ret h e = 0 := hok
  rw [ws2812_set_of_inited env r g b s h]
  simp only [h0, if_true]

theorem transmit_call_eq (env : Periph) (s : State) (r g b : Nat) :
    transmit_call env s r g b =
      Event.rmt_transmit s.s_tx_chan s.s_copy_enc
        (grb_frame (scale s g) (scale s r) (scale s b)) 96 0 := by
  rw [transmit_call, build_symbols_frame]

theorem grb_frame_length (x y z : Nat) : (grb_frame x y z).length = 24 := by
  simp [grb_frame]

theorem ws2812_set_allOk_lazy (env : Periph) (hok : env.allOk) (r g b : Nat) (s : State)
    (h : s.s_inited = false) :
    ws2812_set env r g b s =
      .ok { s with
        s_tx_chan := env.handle s.trace tx_channel_call
        s_copy_enc := env.handle (s.trace ++ [tx_channel_call]) Event.rmt_new_copy_encoder
        s_inited := true
        trace := s.trace ++ [tx_channel_call, Event.rmt_new_copy_encoder,
          Event.rmt_enable (env.handle s.trace tx_channel_call),
          Event.rmt_transmit (env.handle s.trace tx_channel_call)
            (env.handle (s.trace ++ [tx_channel_call]) Event.rmt_new_copy_encoder)
            (grb_frame (scale s g) (scale s r) (scale s b)) 96 0,
          Event.rmt_tx_wait_all_done (env.handle s.trace tx_channel_call) 50,
          Event.esp_rom_delay_us 80] } := by
  rw [ws2812_set_lazy env r g b s h, ws2812_init_allOk env hok s]
  simp only [Result.bind]
  rw [ws2812_set_allOk env hok r g b _ rfl, transmit_call_eq]
  simp [scale]

theorem frames_append (t u : List Event) : frames (t ++ u) = frames t ++ frames u := by
  simp [frames, List.filterMap_append]

theorem ws2812_set_frames (env : Periph) (r g b : Nat) (s : State) :
    frames (ws2812_set env r g b s).state.trace =
        frames s.trace ++ [grb_frame (scale s g) (scale s r) (scale s b)] ∨
      ((ws2812_set env r g b s).returned = false ∧
        frames (ws2812_set env r g b s).state.trace = frames s.trace) := by
  cases h : s.s_inited with
  | true =>
    rw [ws2812_set_of_inited env r g b s h, transmit_call_eq]
    left
    split_ifs <;> simp [Result.state, frames_append, frames, Event.frame]
  | false =>
    rw [ws2812_set_lazy env r g b s h, ws2812_init_unfold]
    split_ifs
    · left
      simp only [Result.bind]
      rw [ws2812_set_of_inited env r g b _ rfl, transmit_call_eq]
      split_ifs <;>
        simp [Result.state, frames_append, frames, Event.frame, scale, tx_channel_call]
    all_goals
      right
      simp [Result.bind, Result.state, Result.returned, frames_append, frames, Event.frame,
        tx_channel_call]

set_option maxRecDepth 1000000 in
theorem decode_bits_byte : ∀ x, x < 256 →
    decode_bits ((List.range 8).map fun k =>
      if x.testBit (7 - k) then
        ({ level0 := 1, duration0 := 7, level1 := 0, duration1 := 6 } : rmt_symbol_word_t)
      else { level0 := 1, duration0 := 4, level1 := 0, duration1 := 8 }) 0 = some x := by
  decide

theorem decode_frame_grb (x y z : Nat) (hx : x < 256) (hy : y < 256) (hz : z < 256) :
    decode_frame (grb_frame x y z) = some (x, y, z) := by
  have e1 : (grb_frame x y z).take 8 = (List.range 8).map fun k =>
      if x.testBit (7 - k) then
        ({ level0 := 1, duration0 := 7, level1 := 0, duration1 := 6 } : rmt_symbol_word_t)
      else { level0 := 1, duration0 := 4, level1 := 0, duration1 := 8 } := by
    simp [grb_frame, range_8]
  have e2 : ((grb_frame x y z).drop 8).take 8 = (List.range 8).map fun k =>
      if y.testBit (7 - k) then
        ({ level0 := 1, duration0 := 7, level1 := 0, duration1 := 6 } : rmt_symbol_word_t)
      else { level0 := 1, duration0 := 4, level1 := 0, duration1 := 8 } := by
    simp [grb_frame, range_8]
  have e3 : (grb_frame x y z).drop 16 = (List.range 8).map fun k =>
      if z.testBit (7 - k) then
        ({ level0 := 1, duration0 := 7, level1 := 0, duration1 := 6 } : rmt_symbol_word_t)
      else { level0 := 1, duration0 := 4, level1 := 0, duration1 := 8 } := by
    simp [grb_frame, range_8]
  unfold decode_frame
  rw [if_pos (grb_frame_length x y z), e1, e2, e3, decode_bits_byte x hx, decode_bits_byte y hy,
    decode_bits_byte z hz]

theorem decode_symbol_grb (x y z : Nat) (w : rmt_symbol_word_t) (hw : w ∈ grb_frame x y z) :
    decode_symbol w = some 1 ∨ decode_symbol w = some 0 := by
  simp only [grb_frame, List.mem_flatMap, List.mem_map] at hw
  obtain ⟨byte, -, k, -, rfl⟩ := hw
  split_ifs
  · left; rfl
  · right; rfl

theorem scale_lt (s : State) (v : Nat) : scale s v < 256 :=
  Nat.mod_lt _ (by decide)

/-! ## Claims on `ws2812_set` -/

/-- C2: the frame `ws2812_set(r, g, b)` hands to the transmitter has exactly 24
symbols and is `encode_byte(scale(g))` followed by `encode_byte(scale(r))`
followed by `encode_byte(scale(b))`: symbols 0..7 carry green, 8..15 red,
16..23 blue.  No other frame is ever handed over (if setup aborts, none is),
and when the peripheral calls succeed the call returns having handed over
exactly this one. -/
theorem ws2812_set_frame_is_grb (env : Periph) (r g b : Nat) (s : State) :
    (encoded (scale s g) ++ encoded (scale s r) ++ encoded (scale s b)).length = 24 ∧
      (encoded (scale s g) ++ encoded (scale s r) ++ encoded (scale s b)).take 8 =
        encoded (scale s g) ∧
      ((encoded (scale s g) ++ encoded (scale s r) ++ encoded (scale s b)).drop 8).take 8 =
        encoded (scale s r) ∧
      (encoded (scale s g) ++ encoded (scale s r) ++ encoded (scale s b)).drop 16 =
        encoded (scale s b) ∧
      (frames (ws2812_set env r g b s).state.trace =
          frames s.trace ++
            [encoded (scale s g) ++ encoded (scale s r) ++ encoded (scale s b)] ∨
        ((ws2812_set env r g b s).returned = false ∧
          frames (ws2812_set env r g b s).state.trace = frames s.trace)) ∧
      (env.allOk →
        (ws2812_set env r g b s).returned = true ∧
          frames (ws2812_set env r g b s).state.trace =
            frames s.trace ++
              [encoded (scale s g) ++ encoded (scale s r) ++ encoded (scale s b)]) := by
  have hlen : ∀ x, (encoded x).length = 8 := fun x => by simp [encoded]
  have hany := ws2812_set_frames env r g b s
  rw [grb_frame_encoded] at hany
  refine ⟨?_, ?_, ?_, ?_, hany, ?_⟩
  · simp [hlen]
  · rw [List.append_assoc, List.take_left' (hlen _)]
  · rw [List.append_assoc, List.drop_left' (hlen _), List.take_left' (hlen _)]
  · rw [List.drop_left' (by simp [hlen])]
  · intro hok
    have hret : (ws2812_set env r g b s).returned = true := by
      cases h : s.s_inited with
      | true => rw [ws2812_set_allOk env hok r g b s h]; rfl
      | false => rw [ws2812_set_allOk_lazy env hok r g b s h]; rfl
    refine ⟨hret, ?_⟩
    rcases hany with h1 | ⟨h1, -⟩
    · exact h1
    · rw [hret] at h1
      cases h1

theorem ws2812_set_frame_is_grb_witness :
    okPeriph.allOk ∧
      (ws2812_set okPeriph 10 20 30 State.initial).returned = true ∧
      frames (ws2812_set okPeriph 10 20 30 State.initial).state.trace =
        frames State.initial.trace ++
          [encoded (scale State.initial 20) ++ encoded (scale State.initial 10) ++
            encoded (scale State.initial 30)] :=
  ⟨fun _ _ => rfl,
    (ws2812_set_frame_is_grb okPeriph 10 20 30 State.initial).2.2.2.2.2 (fun _ _ => rfl)⟩

/-- C4: round trip.  The frame `ws2812_set(r, g, b)` transmits (when the
peripheral calls succeed) is read back by the receiver-side decoder, symbol
(7, 6) ticks as bit 1 and (4, 8) ticks as bit 0, bits most significant first
in groups of eight, as exactly `(scale(g), scale(r), scale(b))`; every symbol
of the frame decodes to a bit. -/
theorem ws2812_set_round_trip (env : Periph) (hok : env.allOk) (r g b : Nat) (s : State) :
    ∃ f, frames (ws2812_set env r g b s).state.trace = frames s.trace ++ [f] ∧
      decode_frame f = some (scale s g, scale s r, scale s b) ∧
      ∀ w ∈ f, decode_symbol w = some 1 ∨ decode_symbol w = some 0 := by
  refine ⟨grb_frame (scale s g) (scale s r) (scale s b), ?_,
    decode_frame_grb _ _ _ (scale_lt s g) (scale_lt s r) (scale_lt s b),
    fun w hw => decode_symbol_grb _ _ _ w hw⟩
  cases h : s.s_inited with
  | true =>
    rw [ws2812_set_allOk env hok r g b s h, transmit_call_eq]
    simp [Result.state, frames_append, frames, Event.frame]
  | false =>
    rw [ws2812_set_allOk_lazy env hok r g b s h]
    simp [Result.state, frames_append, frames, Event.frame, tx_channel_call]

theorem ws2812_set_round_trip_witness :
    okPeriph.allOk ∧
      ∃ f, frames (ws2812_set okPeriph 10 20 30 State.initial).state.trace =
          frames State.initial.trace ++ [f] ∧
        decode_frame f =
          some (scale State.initial 20, scale State.initial 10, scale State.initial 30) ∧
        ∀ w ∈ f, decode_symbol w = some 1 ∨ decode_symbol w = some 0 :=
  ⟨fun _ _ => rfl, ws2812_set_round_trip okPeriph (fun _ _ => rfl) 10 20 30 State.initial⟩

/-- C8: from the uninitialized state (`s_inited = false`), when the peripheral
calls succeed, `ws2812_set` returns, has run the three setup calls of
`ws2812_init` exactly once and before the transmit, leaves `s_inited` set, and
its outcome (hence the 24-symbol frame it transmits) is the one of
`ws2812_init` followed by `ws2812_set` with the same arguments. -/
theorem lazy_init_same_as_explicit (env : Periph) (hok : env.allOk) (r g b : Nat) (s : State)
    (h : s.s_inited = false) :
    ws2812_set env r g b s = (ws2812_init env s).bind (ws2812_set env r g b) ∧
      (ws2812_set env r g b s).returned = true ∧
      (ws2812_set env r g b s).state.s_inited = true ∧
      (∃ chan enc, (ws2812_set env r g b s).state.trace =
        s.trace ++ [tx_channel_call, Event.rmt_new_copy_encoder, Event.rmt_enable chan,
          Event.rmt_transmit chan enc (grb_frame (scale s g) (scale s r) (scale s b)) 96 0,
          Event.rmt_tx_wait_all_done chan 50, Event.esp_rom_delay_us 80]) ∧
      frames (ws2812_set env r g b s).state.trace =
        frames ((ws2812_init env s).bind (ws2812_set env r g b)).state.trace ∧
      frames ((ws2812_init env s).bind (ws2812_set env r g b)).state.trace =
        frames s.trace ++ [grb_frame (scale s g) (scale s r) (scale s b)] ∧
      (grb_frame (scale s g) (scale s r) (scale s b)).length = 24 := by
  have hl := ws2812_set_lazy env r g b s h
  have hs := ws2812_set_allOk_lazy env hok r g b s h
  refine ⟨hl, ?_, ?_, ?_, ?_, ?_, grb_frame_length _ _ _⟩
  · rw [hs]; rfl
  · rw [hs]; rfl
  · rw [hs]
    exact ⟨_, _, rfl⟩
  · rw [← hl]
  · rw [← hl, hs]
    simp [Result.state, frames, Event.frame, List.filterMap_append, tx_channel_call]

theorem lazy_init_same_as_explicit_witness :
    (okPeriph.allOk ∧ State.initial.s_inited = false) ∧
      (ws2812_set okPeriph 10 20 30 State.initial =
          (ws2812_init okPeriph State.initial).bind (ws2812_set okPeriph 10 20 30) ∧
        (ws2812_set okPeriph 10 20 30 State.initial).returned = true ∧
        (ws2812_set okPeriph 10 20 30 State.initial).state.s_inited = true ∧
        (∃ chan enc, (ws2812_set okPeriph 10 20 30 State.initial).state.trace =
          State.initial.trace ++ [tx_channel_call, Event.rmt_new_copy_encoder,
            Event.rmt_enable chan,
            Event.rmt_transmit chan enc
              (grb_frame (scale State.initial 20) (scale State.initial 10)
                (scale State.initial 30)) 96 0,
            Event.rmt_tx_wait_all_done chan 50, Event.esp_rom_delay_us 80]) ∧
        frames (ws2812_set okPeriph 10 20 30 State.initial).state.trace =
          frames ((ws2812_init okPeriph State.initial).bind
            (ws2812_set okPeriph 10 20 30)).state.trace ∧
        frames ((ws2812_init okPeriph State.initial).bind
            (ws2812_set okPeriph 10 20 30)).state.trace =
          frames State.initial.trace ++
            [grb_frame (scale State.initial 20) (scale State.initial 10)
              (scale State.initial 30)] ∧
        (grb_frame (scale State.initial 20) (scale State.initial 10)
          (scale State.initial 30)).length = 24) :=
  ⟨⟨fun _ _ => rfl, rfl⟩,
    lazy_init_same_as_explicit okPeriph (fun _ _ => rfl) 10 20 30 State.initial rfl⟩

/-! ## Counting setup calls along call sequences -/

theorem setups_from_cons (si fi : Bool) (op : Op) (rest : List Op)
    (hinv : fi = true → si = true) :
    setups_from si fi (op :: rest) =
      setups_from si fi [op] + setups_from (si || op.sets_inited) (fi || op.is_facade) rest := by
  cases op <;> cases si <;> cases fi <;>
    simp_all [setups_from, lazy_first, Op.is_facade, Op.sets_inited, List.count_cons] <;> omega

theorem ws2812_init_count (env : Periph) (p : Event → Bool) (hp : setup_kind p) (s : State) :
    (ws2812_init env s).state.trace.countP p ≤ s.trace.countP p + 1 ∧
      ((ws2812_init env s).returned = true →
        (ws2812_init env s).state.trace.countP p = s.trace.countP p + 1) ∧
      (ws2812_init env s).state.inited = s.inited ∧
      (ws2812_init env s).state.s_brightness = s.s_brightness ∧
      ((ws2812_init env s).returned = true → (ws2812_init env s).state.s_inited = true) := by
  rw [ws2812_init_unfold]
  rcases hp with rfl | rfl | rfl <;> split_ifs <;>
    simp [Result.state, Result.returned, List.countP_append, List.countP_cons,
      Event.is_new_tx_channel, Event.is_new_copy_encoder, Event.is_enable, tx_channel_call]

theorem ws2812_set_count (env : Periph) (p : Event → Bool) (hp : setup_kind p) (r g b : Nat)
    (s : State) (h : s.s_inited = true) :
    (ws2812_set env r g b s).state.trace.countP p = s.trace.countP p ∧
      (ws2812_set env r g b s).state.inited = s.inited ∧
      (ws2812_set env r g b s).state.s_brightness = s.s_brightness ∧
      (ws2812_set env r g b s).state.s_inited = true := by
  rw [ws2812_set_of_inited env r g b s h, transmit_call_eq]
  rcases hp with rfl | rfl | rfl <;> split_ifs <;>
    simp [Result.state, List.countP_append, List.countP_cons,
      Event.is_new_tx_channel, Event.is_new_copy_encoder, Event.is_enable, h]

theorem ws2812_set_count_lazy (env : Periph) (p : Event → Bool) (hp : setup_kind p) (r g b : Nat)
    (s : State) (h : s.s_inited = false) :
    (ws2812_set env r g b s).state.trace.countP p ≤ s.trace.countP p + 1 ∧
      ((ws2812_set env r g b s).returned = true →
        (ws2812_set env r g b s).state.trace.countP p = s.trace.countP p + 1 ∧
          (ws2812_set env r g b s).state.s_inited = true) ∧
      (ws2812_set env r g b s).state.inited = s.inited ∧
      (ws2812_set env r g b s).state.s_brightness = s.s_brightness := by
  have hi := ws2812_init_count env p hp s
  rw [ws2812_set_lazy env r g b s h]
  cases hA : ws2812_init env s with
  | ok s1 =>
    rw [hA] at hi
    simp only [Result.state, Result.returned, true_implies] at hi
    obtain ⟨-, h2, h3, h4, h5⟩ := hi
    have hs := ws2812_set_count env p hp r g b s1 h5
    simp only [Result.bind]
    rw [hs.1, hs.2.1, hs.2.2.1, hs.2.2.2, h2, h3, h4]
    simp
  | abort s1 =>
    rw [hA] at hi
    simp only [Result.state, Result.returned] at hi
    simp only [Result.bind, Result.state, Result.returned]
    exact ⟨hi.1, by simp, hi.2.2.1, hi.2.2.2.1⟩

theorem led_init_once_done (env : Periph) (s : State) (h : s.inited = true) :
    led_init_once env s = .ok s := by
  simp [led_init_once, h]

theorem rcp_led_boot_done (env : Periph) (s : State) (h : s.inited = true) :
    rcp_led_boot env s = ws2812_set env 255 0 0 s := by
  simp [rcp_led_boot, led_init_once_done env s h, Result.bind]

theorem rcp_led_ready_done (env : Periph) (s : State) (h : s.inited = true) :
    rcp_led_ready env s = ws2812_set env 0 255 0 s := by
  simp [rcp_led_ready, led_init_once_done env s h, Result.bind]

/-- A facade call with the facade flag clear: `ws2812_init`, then the brightness and
the flag are stored, then the color is set. -/
theorem facade_first (env : Periph) (r g b : Nat) (s : State) (h : s.inited = false) :
    (led_init_once env s).bind (ws2812_set env r g b) =
      (ws2812_init env s).bind fun s1 =>
        ws2812_set env r g b { ws2812_set_brightness LED_BRIGHTNESS s1 with inited := true } := by
  simp only [led_init_once, h, Bool.not_false, if_true]
  cases ws2812_init env s <;> rfl

theorem facade_count_first (env : Periph) (p : Event → Bool) (hp : setup_kind p) (r g b : Nat)
    (s : State) (h : s.inited = false) :
    ((led_init_once env s).bind (ws2812_set env r g b)).state.trace.countP p ≤
        s.trace.countP p + 1 ∧
      (((led_init_once env s).bind (ws2812_set env r g b)).returned = true →
        ((led_init_once env s).bind (ws2812_set env r g b)).state.trace.countP p =
            s.trace.countP p + 1 ∧
          ((led_init_once env s).bind (ws2812_set env r g b)).state.s_inited = true ∧
          ((led_init_once env s).bind (ws2812_set env r g b)).state.inited = true ∧
          ((led_init_once env s).bind (ws2812_set env r g b)).state.s_brightness = 32) := by
  have hi := ws2812_init_count env p hp s
  rw [facade_first env r g b s h]
  cases hA : ws2812_init env s with
  | ok s1 =>
    rw [hA] at hi
    simp only [Result.state, Result.returned, true_implies] at hi
    obtain ⟨-, h2, h3, h4, h5⟩ := hi
    have hs := ws2812_set_count env p hp r g b
      { ws2812_set_brightness LED_BRIGHTNESS s1 with inited := true } h5
    simp only [Result.bind]
    rw [hs.1, hs.2.1, hs.2.2.1, hs.2.2.2]
    simp [ws2812_set_brightness, h2, LED_BRIGHTNESS]
  | abort s1 =>
    rw [hA] at hi
    simp only [Result.state, Result.returned] at hi
    simp only [Result.bind, Result.state, Result.returned]
    exact ⟨hi.1, by simp⟩

theorem step_count (env : Periph) (p : Event → Bool) (hp : setup_kind p) (op : Op) (s : State)
    (hinv : s.inited = true → s.s_inited = true) :
    (step env op s).state.trace.countP p ≤
        s.trace.countP p + setups_from s.s_inited s.inited [op] ∧
      ((step env op s).returned = true →
        (step env op s).state.trace.countP p =
            s.trace.countP p + setups_from s.s_inited s.inited [op] ∧
          (step env op s).state.s_inited = (s.s_inited || op.sets_inited) ∧
          (step env op s).state.inited = (s.inited || op.is_facade)) := by
  cases op with
  | init =>
    have hi := ws2812_init_count env p hp s
    simp only [step]
    have e : setups_from s.s_inited s.inited [Op.init] = 1 := by
      simp [setups_from, lazy_first, Op.is_facade]
    rw [e]
    refine ⟨hi.1, fun hr => ⟨hi.2.1 hr, ?_, ?_⟩⟩
    · rw [hi.2.2.2.2 hr]; simp [Op.sets_inited]
    · rw [hi.2.2.1]; simp [Op.is_facade]
  | set r g b =>
    simp only [step]
    cases h : s.s_inited with
    | true =>
      have hs := ws2812_set_count env p hp r g b s h
      have e : setups_from true s.inited [Op.set r g b] = 0 := by
        simp [setups_from, lazy_first, Op.is_facade]
      rw [e, hs.1, hs.2.1, hs.2.2.2]
      simp [Op.is_facade]
    | false =>
      have hs := ws2812_set_count_lazy env p hp r g b s h
      have hfi : s.inited = false := by
        cases hf : s.inited with
        | false => rfl
        | true => rw [hinv hf] at h; cases h
      have e : setups_from false s.inited [Op.set r g b] = 1 := by
        simp [setups_from, lazy_first, Op.is_facade]
      rw [e]
      refine ⟨hs.1, fun hr => ⟨(hs.2.1 hr).1, ?_, ?_⟩⟩
      · rw [(hs.2.1 hr).2]; simp [Op.sets_inited]
      · rw [hs.2.2.1]; simp [Op.is_facade]
  | set_brightness x =>
    simp [step, Result.state, Result.returned, ws2812_set_brightness, setups_from, lazy_first,
      Op.is_facade, Op.sets_inited]
  | boot =>
    simp only [step, rcp_led_boot]
    cases hf : s.inited with
    | true =>
      have h := hinv hf
      have hs := ws2812_set_count env p hp 255 0 0 s h
      have e : setups_from s.s_inited true [Op.boot] = 0 := by
        simp [setups_from, lazy_first, Op.is_facade]
      rw [led_init_once_done env s hf]
      simp only [Result.bind]
      rw [e, hs.1, hs.2.1, hs.2.2.2, hf, h]
      simp
    | false =>
      have hs := facade_count_first env p hp 255 0 0 s hf
      have e : setups_from s.s_inited false [Op.boot] = 1 := by
        simp [setups_from, lazy_first, Op.is_facade]
      rw [e]
      refine ⟨hs.1, fun hr => ⟨(hs.2 hr).1, ?_, ?_⟩⟩
      · rw [(hs.2 hr).2.1]; simp [Op.sets_inited]
      · rw [(hs.2 hr).2.2.1]; simp [Op.is_facade]
  | ready =>
    simp only [step, rcp_led_ready]
    cases hf : s.inited with
    | true =>
      have h := hinv hf
      have hs := ws2812_set_count env p hp 0 255 0 s h
      have e : setups_from s.s_inited true [Op.ready] = 0 := by
        simp [setups_from, lazy_first, Op.is_facade]
      rw [led_init_once_done env s hf]
      simp only [Result.bind]
      rw [e, hs.1, hs.2.1, hs.2.2.2, hf, h]
      simp
    | false =>
      have hs := facade_count_first env p hp 0 255 0 s hf
      have e : setups_from s.s_inited false [Op.ready] = 1 := by
        simp [setups_from, lazy_first, Op.is_facade]
      rw [e]
      refine ⟨hs.1, fun hr => ⟨(hs.2 hr).1, ?_, ?_⟩⟩
      · rw [(hs.2 hr).2.1]; simp [Op.sets_inited]
      · rw [(hs.2 hr).2.2.1]; simp [Op.is_facade]

theorem run_count (env : Periph) (p : Event → Bool) (hp : setup_kind p) (ops : List Op) :
    ∀ s : State, (s.inited = true → s.s_inited = true) →
      (run env ops s).state.trace.countP p ≤
          s.trace.countP p + setups_from s.s_inited s.inited ops ∧
        ((run env ops s).returned = true →
          (run env ops s).state.trace.countP p =
            s.trace.countP p + setups_from s.s_inited s.inited ops) := by
  induction ops with
  | nil =>
    intro s _
    simp [run, Result.state, setups_from, lazy_first]
  | cons op rest ih =>
    intro s hinv
    have hst := step_count env p hp op s hinv
    have hc := setups_from_cons s.s_inited s.inited op rest hinv
    simp only [run]
    cases hA : step env op s with
    | ok s1 =>
      rw [hA] at hst
      simp only [Result.state, Result.returned, true_implies] at hst
      obtain ⟨-, h1, h2, h3⟩ := hst
      have hinv1 : s1.inited = true → s1.s_inited = true := by
        rw [h2, h3]
        intro hh
        cases hop : op <;> cases hsi : s.s_inited <;> cases hfi : s.inited <;>
          simp_all [Op.is_facade, Op.sets_inited]
      have h := ih s1 hinv1
      simp only [Result.bind]
      rw [h1, h2, h3] at h
      rw [hc]
      constructor
      · omega
      · intro hr
        have := h.2 hr
        omega
    | abort s1 =>
      rw [hA] at hst
      simp only [Result.state, Result.returned] at hst
      simp only [Result.bind, Result.state, Result.returned]
      refine ⟨by omega, by simp⟩

/-! ## Runs in which every peripheral call succeeds -/

theorem ws2812_set_returns (env : Periph) (hok : env.allOk) (r g b : Nat) (s : State) :
    ∃ s1, ws2812_set env r g b s = .ok s1 ∧ s1.s_inited = true ∧ s1.inited = s.inited ∧
      s1.s_brightness = s.s_brightness ∧
      frames s1.trace = frames s.trace ++ [grb_frame (scale s g) (scale s r) (scale s b)] := by
  cases h : s.s_inited with
  | true =>
    refine ⟨_, ws2812_set_allOk env hok r g b s h, h, rfl, rfl, ?_⟩
    rw [transmit_call_eq]
    simp [frames_append, frames, Event.frame]
  | false =>
    refine ⟨_, ws2812_set_allOk_lazy env hok r g b s h, rfl, rfl, rfl, ?_⟩
    simp [frames_append, frames, Event.frame, tx_channel_call]

theorem facade_returns (env : Periph) (hok : env.allOk) (r g b : Nat) (s : State)
    (hs : s.inited = false ∨ s.s_brightness = 32) :
    ∃ s1, (led_init_once env s).bind (ws2812_set env r g b) = .ok s1 ∧ s1.s_inited = true ∧
      s1.inited = true ∧ s1.s_brightness = 32 ∧
      frames s1.trace = frames s.trace ++
        [grb_frame (g * 32 / 255 % 256) (r * 32 / 255 % 256) (b * 32 / 255 % 256)] := by
  have hsc : ∀ (t : State) (v : Nat), t.s_brightness = 32 → scale t v = v * 32 / 255 % 256 := by
    intro t v ht
    simp [scale, ht]
  cases hf : s.inited with
  | true =>
    have hb : s.s_brightness = 32 := by
      rcases hs with h | h
      · rw [hf] at h; cases h
      · exact h
    obtain ⟨s1, h1, h2, h3, h4, h5⟩ := ws2812_set_returns env hok r g b s
    rw [led_init_once_done env s hf]
    refine ⟨s1, h1, h2, by rw [h3, hf], by rw [h4, hb], ?_⟩
    rw [h5, hsc s g hb, hsc s r hb, hsc s b hb]
  | false =>
    rw [facade_first env r g b s hf, ws2812_init_allOk env hok s]
    obtain ⟨s1, h1, h2, h3, h4, h5⟩ := ws2812_set_returns env hok r g b
      { ws2812_set_brightness LED_BRIGHTNESS
          { s with
            s_tx_chan := env.handle s.trace tx_channel_call
            s_copy_enc := env.handle (s.trace ++ [tx_channel_call]) Event.rmt_new_copy_encoder
            s_inited := true
            trace := s.trace ++ [tx_channel_call, Event.rmt_new_copy_encoder,
              Event.rmt_enable (env.handle s.trace tx_channel_call)] } with inited := true }
    refine ⟨s1, h1, h2, h3, h4, ?_⟩
    rw [h5, hsc _ g rfl, hsc _ r rfl, hsc _ b rfl]
    simp [ws2812_set_brightness, frames_append, frames, Event.frame, tx_channel_call]

theorem step_returns (env : Periph) (hok : env.allOk) (op : Op) (s : State) :
    (step env op s).returned = true := by
  cases op with
  | init => simp only [step]; rw [ws2812_init_allOk env hok s]; rfl
  | set r g b =>
    obtain ⟨s1, h1, -⟩ := ws2812_set_returns env hok r g b s
    simp only [step]; rw [h1]; rfl
  | set_brightness x => rfl
  | boot =>
    simp only [step, rcp_led_boot]
    cases hf : s.inited with
    | true =>
      obtain ⟨s1, h1, -⟩ := ws2812_set_returns env hok 255 0 0 s
      rw [led_init_once_done env s hf]
      simp only [Result.bind]
      rw [h1]; rfl
    | false =>
      obtain ⟨s1, h1, -⟩ := facade_returns env hok 255 0 0 s (Or.inl hf)
      rw [h1]; rfl
  | ready =>
    simp only [step, rcp_led_ready]
    cases hf : s.inited with
    | true =>
      obtain ⟨s1, h1, -⟩ := ws2812_set_returns env hok 0 255 0 s
      rw [led_init_once_done env s hf]
      simp only [Result.bind]
      rw [h1]; rfl
    | false =>
      obtain ⟨s1, h1, -⟩ := facade_returns env hok 0 255 0 s (Or.inl hf)
      rw [h1]; rfl

theorem run_returns (env : Periph) (hok : env.allOk) (ops : List Op) :
    ∀ s : State, (run env ops s).returned = true := by
  induction ops with
  | nil => intro s; rfl
  | cons op rest ih =>
    intro s
    have h := step_returns env hok op s
    simp only [run]
    cases hA : step env op s with
    | ok s1 => exact ih s1
    | abort s1 => rw [hA] at h; cases h

theorem facade_first_allOk (env : Periph) (hok : env.allOk) (r g b : Nat) (s : State)
    (hf : s.inited = false) :
    (led_init_once env s).bind (ws2812_set env r g b) =
      .ok { s_tx_chan := env.handle s.trace tx_channel_call
            s_copy_enc := env.handle (s.trace ++ [tx_channel_call]) Event.rmt_new_copy_encoder
            s_brightness := 32
            s_inited := true
            inited := true
            trace := s.trace ++ [tx_channel_call, Event.rmt_new_copy_encoder,
              Event.rmt_enable (env.handle s.trace tx_channel_call),
              Event.rmt_transmit (env.handle s.trace tx_channel_call)
                (env.handle (s.trace ++ [tx_channel_call]) Event.rmt_new_copy_encoder)
                (grb_frame (g * 32 / 255 % 256) (r * 32 / 255 % 256) (b * 32 / 255 % 256)) 96 0,
              Event.rmt_tx_wait_all_done (env.handle s.trace tx_channel_call) 50,
              Event.esp_rom_delay_us 80] } := by
  rw [facade_first env r g b s hf, ws2812_init_allOk env hok s]
  simp only [Result.bind]
  rw [ws2812_set_allOk env hok r g b _ rfl, transmit_call_eq]
  simp [ws2812_set_brightness, LED_BRIGHTNESS, scale]

theorem step_facade (env : Periph) (op : Op) (hop : op.is_facade = true) (s : State) :
    step env op s =
      (led_init_once env s).bind (step env (color_set op)) := by
  cases op <;> first | rfl | cases hop

theorem facade_frame_eq (op : Op) (hop : op.is_facade = true) :
    ∃ r g b, color_set op = Op.set r g b ∧
      facade_frame op =
        grb_frame (g * 32 / 255 % 256) (r * 32 / 255 % 256) (b * 32 / 255 % 256) := by
  cases op with
  | boot => exact ⟨255, 0, 0, rfl, rfl⟩
  | ready => exact ⟨0, 255, 0, rfl, rfl⟩
  | init => cases hop
  | set r g b => cases hop
  | set_brightness x => cases hop

theorem facade_step (env : Periph) (hok : env.allOk) (op : Op) (hop : op.is_facade = true)
    (s : State) (hs : s.inited = false ∨ s.s_brightness = 32) :
    ∃ s1, step env op s = .ok s1 ∧ s1.s_inited = true ∧ s1.inited = true ∧
      s1.s_brightness = 32 ∧ frames s1.trace = frames s.trace ++ [facade_frame op] := by
  obtain ⟨r, g, b, hc, hfr⟩ := facade_frame_eq op hop
  obtain ⟨s1, h1, h2, h3, h4, h5⟩ := facade_returns env hok r g b s hs
  refine ⟨s1, ?_, h2, h3, h4, by rw [h5, hfr]⟩
  rw [step_facade env op hop s, hc, ← h1]
  rfl

theorem facade_run (env : Periph) (hok : env.allOk) (ops : List Op)
    (hops : ∀ o ∈ ops, o.is_facade = true) :
    ∀ s : State, (s.inited = false ∨ s.s_brightness = 32) →
      ∃ s1, run env ops s = .ok s1 ∧
        frames s1.trace = frames s.trace ++ ops.map facade_frame ∧
        (ops ≠ [] → s1.s_brightness = 32 ∧ s1.inited = true ∧ s1.s_inited = true) := by
  induction ops with
  | nil =>
    intro s _
    exact ⟨s, rfl, by simp, fun h => absurd rfl h⟩
  | cons op rest ih =>
    intro s hs
    obtain ⟨s1, h1, h2, h3, h4, h5⟩ :=
      facade_step env hok op (hops op (List.mem_cons_self _ _)) s hs
    obtain ⟨s2, k1, k2, k3⟩ :=
      ih (fun o ho => hops o (List.mem_cons_of_mem _ ho)) s1 (Or.inr h4)
    refine ⟨s2, ?_, ?_, fun _ => ?_⟩
    · simp only [run]
      rw [h1]
      exact k1
    · rw [k2, h5]
      simp
    · cases hrest : rest with
      | nil =>
        subst hrest
        cases k1
        exact ⟨h4, h3, h2⟩
      | cons o os => exact k3 (by rw [hrest]; exact List.cons_ne_nil _ _)

theorem ws2812_set_keeps_inited (env : Periph) (r g b : Nat) (s : State) :
    (ws2812_set env r g b s).state.inited = s.inited := by
  cases h : s.s_inited with
  | true => exact (ws2812_set_count env _ (Or.inl rfl) r g b s h).2.1
  | false => exact (ws2812_set_count_lazy env _ (Or.inl rfl) r g b s h).2.2.1

/-- Once the facade flag is set, facade calls are plain color sets, in every
environment. -/
theorem run_facade_as_sets (env : Periph) (ops : List Op)
    (hops : ∀ o ∈ ops, o.is_facade = true) :
    ∀ s : State, s.inited = true → run env ops s = run env (ops.map color_set) s := by
  induction ops with
  | nil => intro s _; rfl
  | cons op rest ih =>
    intro s hs
    have hop := hops op (List.mem_cons_self _ _)
    obtain ⟨r, g, b, hc, -⟩ := facade_frame_eq op hop
    have e : step env op s = step env (color_set op) s := by
      rw [step_facade env op hop s, led_init_once_done env s hs]
      rfl
    simp only [run, List.map_cons]
    rw [e]
    cases hA : step env (color_set op) s with
    | ok s1 =>
      have hk := ws2812_set_keeps_inited env r g b s
      rw [hc] at hA
      simp only [step] at hA
      rw [hA] at hk
      simp only [Result.bind]
      exact ih (fun o ho => hops o (List.mem_cons_of_mem _ ho)) s1 (by rw [← hs]; exact hk)
    | abort s1 => rfl

theorem expected_setups_facade (op : Op) (rest : List Op) (hop : op.is_facade = true)
    (hrest : ∀ o ∈ rest, o.is_facade = true) : expected_setups (op :: rest) = 1 := by
  have hc : ∀ l : List Op, (∀ o ∈ l, o.is_facade = true) → l.count Op.init = 0 := by
    intro l hl
    rw [List.count_eq_zero]
    intro hmem
    exact absurd (hl _ hmem) (by decide)
  have h1 := hc (op :: rest) (by
    intro o ho
    rcases List.mem_cons.1 ho with rfl | h
    · exact hop
    · exact hrest o h)
  have h2 : lazy_first (op :: rest) = false := by
    cases op <;> first | rfl | cases hop
  simp [expected_setups, setups_from, h1, h2, hop]

/-! ## Claims on call sequences -/

/-- C5, as stated, fails: two direct `ws2812_init` calls run the setup twice, and so
does a facade call after a lazily initializing `ws2812_set`. -/
theorem setup_twice_counterexample :
    ¬ ((run okPeriph [Op.init, Op.init] State.initial).state.trace.countP
        Event.is_new_tx_channel ≤ 1) ∧
      ¬ ((run okPeriph [Op.set 1 2 3, Op.boot] State.initial).state.trace.countP
        Event.is_new_tx_channel ≤ 1) := by
  decide

/-- C5 (amended): from the initial process state, the setup calls of `ws2812_init`
(`rmt_new_tx_channel`, `rmt_new_copy_encoder`, `rmt_enable`) are each executed
at most once along every sequence of public calls for which the number of
direct `ws2812_init` calls, plus one if the sequence has a facade call, plus one
if its first call other than `ws2812_set_brightness` is a `ws2812_set`, is at
most one; and when the peripheral calls succeed the run returns and each setup
call is executed exactly that number of times. -/
theorem setup_runs_counted (env : Periph) (ops : List Op) :
    (expected_setups ops ≤ 1 →
        (run env ops State.initial).state.trace.countP Event.is_new_tx_channel ≤ 1 ∧
        (run env ops State.initial).state.trace.countP Event.is_new_copy_encoder ≤ 1 ∧
        (run env ops State.initial).state.trace.countP Event.is_enable ≤ 1) ∧
      (env.allOk →
        (run env ops State.initial).returned = true ∧
        (run env ops State.initial).state.trace.countP Event.is_new_tx_channel =
          expected_setups ops ∧
        (run env ops State.initial).state.trace.countP Event.is_new_copy_encoder =
          expected_setups ops ∧
        (run env ops State.initial).state.trace.countP Event.is_enable =
          expected_setups ops) := by
  have hinv : State.initial.inited = true → State.initial.s_inited = true := fun h => by cases h
  have h1 := run_count env _ (Or.inl rfl) ops State.initial hinv
  have h2 := run_count env _ (Or.inr (Or.inl rfl)) ops State.initial hinv
  have h3 := run_count env _ (Or.inr (Or.inr rfl)) ops State.initial hinv
  have e : setups_from State.initial.s_inited State.initial.inited ops = expected_setups ops :=
    rfl
  have z : ∀ p, State.initial.trace.countP p = 0 := fun p => rfl
  rw [e, z, Nat.zero_add] at h1 h2 h3
  constructor
  · intro hle
    exact ⟨le_trans h1.1 hle, le_trans h2.1 hle, le_trans h3.1 hle⟩
  · intro hok
    have hr := run_returns env hok ops State.initial
    exact ⟨hr, h1.2 hr, h2.2 hr, h3.2 hr⟩

theorem setup_runs_counted_witness :
    (expected_setups [Op.set_brightness 5, Op.boot, Op.set 1 2 3, Op.ready] ≤ 1 ∧
        okPeriph.allOk) ∧
      ((run okPeriph [Op.set_brightness 5, Op.boot, Op.set 1 2 3, Op.ready]
          State.initial).state.trace.countP Event.is_new_tx_channel ≤ 1 ∧
        (run okPeriph [Op.set_brightness 5, Op.boot, Op.set 1 2 3, Op.ready]
          State.initial).returned = true) :=
  ⟨⟨by decide, fun _ _ => rfl⟩,
    ((setup_runs_counted okPeriph
      [Op.set_brightness 5, Op.boot, Op.set 1 2 3, Op.ready]).1 (by decide)).1,
    ((setup_runs_counted okPeriph
      [Op.set_brightness 5, Op.boot, Op.set 1 2 3, Op.ready]).2 (fun _ _ => rfl)).1⟩

/-- C6: from the initial process state, along a non-empty sequence of
`rcp_led_boot` / `rcp_led_ready` calls the one-time setup runs once, in the
first call: every later call is the plain color set (in every environment), no
setup call is made more than once (in every environment), and when the
peripheral calls succeed the first call returns having made the three setup
calls and then its transmit, with brightness 32 and both flags set, and the
whole run returns with each setup call made exactly once. -/
theorem facade_setup_once (env : Periph) (op : Op) (rest : List Op)
    (hop : op.is_facade = true) (hrest : ∀ o ∈ rest, o.is_facade = true) :
    run env (op :: rest) State.initial =
        (step env op State.initial).bind (run env (rest.map color_set)) ∧
      ((run env (op :: rest) State.initial).state.trace.countP Event.is_new_tx_channel ≤ 1 ∧
        (run env (op :: rest) State.initial).state.trace.countP Event.is_new_copy_encoder ≤ 1 ∧
        (run env (op :: rest) State.initial).state.trace.countP Event.is_enable ≤ 1) ∧
      (env.allOk →
        ∃ s1 sN chan enc,
          step env op State.initial = .ok s1 ∧
          s1.trace = [tx_channel_call, Event.rmt_new_copy_encoder, Event.rmt_enable chan,
            Event.rmt_transmit chan enc (facade_frame op) 96 0,
            Event.rmt_tx_wait_all_done chan 50, Event.esp_rom_delay_us 80] ∧
          s1.s_brightness = 32 ∧ s1.inited = true ∧ s1.s_inited = true ∧
          run env (op :: rest) State.initial = .ok sN ∧
          sN.s_brightness = 32 ∧
          sN.trace.countP Event.is_new_tx_channel = 1 ∧
          sN.trace.countP Event.is_new_copy_encoder = 1 ∧
          sN.trace.countP Event.is_enable = 1) := by
  have hinv : State.initial.inited = true → State.initial.s_inited = true := fun h => by cases h
  have hall : ∀ o ∈ op :: rest, o.is_facade = true := by
    intro o ho
    rcases List.mem_cons.1 ho with rfl | h
    · exact hop
    · exact hrest o h
  have hexp := expected_setups_facade op rest hop hrest
  have e : setups_from State.initial.s_inited State.initial.inited (op :: rest) =
      expected_setups (op :: rest) := rfl
  have z : ∀ p, State.initial.trace.countP p = 0 := fun p => rfl
  have h1 := run_count env _ (Or.inl rfl) (op :: rest) State.initial hinv
  have h2 := run_count env _ (Or.inr (Or.inl rfl)) (op :: rest) State.initial hinv
  have h3 := run_count env _ (Or.inr (Or.inr rfl)) (op :: rest) State.initial hinv
  rw [e, z, Nat.zero_add, hexp] at h1 h2 h3
  refine ⟨?_, ⟨h1.1, h2.1, h3.1⟩, ?_⟩
  · simp only [run]
    cases hA : step env op State.initial with
    | ok s1 =>
      have hk : s1.inited = true := by
        have hs := (step_count env _ (Or.inl rfl) op State.initial hinv).2
        rw [hA] at hs
        have := (hs rfl).2.2
        simp only [Result.state] at this
        rw [this, hop]
        simp
      simp only [Result.bind]
      exact run_facade_as_sets env rest hrest s1 hk
    | abort s1 => rfl
  · intro hok
    obtain ⟨r, g, b, hc, hfr⟩ := facade_frame_eq op hop
    have hfirst := facade_first_allOk env hok r g b State.initial rfl
    have hstep : step env op State.initial =
        (led_init_once env State.initial).bind (ws2812_set env r g b) := by
      rw [step_facade env op hop State.initial, hc]
      rfl
    rw [hfirst] at hstep
    obtain ⟨sN, k1, -, k3⟩ := facade_run env hok (op :: rest) hall State.initial (Or.inl rfl)
    rw [k1] at h1 h2 h3
    refine ⟨_, sN, env.handle State.initial.trace tx_channel_call,
      env.handle (State.initial.trace ++ [tx_channel_call]) Event.rmt_new_copy_encoder,
      hstep, ?_, rfl, rfl, rfl, k1, (k3 (List.cons_ne_nil _ _)).1,
      h1.2 rfl, h2.2 rfl, h3.2 rfl⟩
    rw [hfr]
    rfl

theorem facade_frame_boot : facade_frame Op.boot = grb_frame 0 32 0 := rfl

theorem facade_frame_ready : facade_frame Op.ready = grb_frame 32 0 0 := rfl

theorem facade_setup_once_witness :
    (Op.boot.is_facade = true ∧ (∀ o ∈ [Op.ready, Op.boot], o.is_facade = true) ∧
        okPeriph.allOk) ∧
      (run okPeriph (Op.boot :: [Op.ready, Op.boot]) State.initial =
          (step okPeriph Op.boot State.initial).bind
            (run okPeriph ([Op.ready, Op.boot].map color_set)) ∧
        ((run okPeriph (Op.boot :: [Op.ready, Op.boot]) State.initial).state.trace.countP
            Event.is_new_tx_channel ≤ 1 ∧
          (run okPeriph (Op.boot :: [Op.ready, Op.boot]) State.initial).state.trace.countP
            Event.is_new_copy_encoder ≤ 1 ∧
          (run okPeriph (Op.boot :: [Op.ready, Op.boot]) State.initial).state.trace.countP
            Event.is_enable ≤ 1) ∧
        ∃ s1 sN chan enc,
          step okPeriph Op.boot State.initial = .ok s1 ∧
          s1.trace = [tx_channel_call, Event.rmt_new_copy_encoder, Event.rmt_enable chan,
            Event.rmt_transmit chan enc (facade_frame Op.boot) 96 0,
            Event.rmt_tx_wait_all_done chan 50, Event.esp_rom_delay_us 80] ∧
          s1.s_brightness = 32 ∧ s1.inited = true ∧ s1.s_inited = true ∧
          run okPeriph (Op.boot :: [Op.ready, Op.boot]) State.initial = .ok sN ∧
          sN.s_brightness = 32 ∧
          sN.trace.countP Event.is_new_tx_channel = 1 ∧
          sN.trace.countP Event.is_new_copy_encoder = 1 ∧
          sN.trace.countP Event.is_enable = 1) :=
  ⟨⟨rfl, by decide, fun _ _ => rfl⟩,
    (facade_setup_once okPeriph Op.boot [Op.ready, Op.boot] rfl (by decide)).1,
    (facade_setup_once okPeriph Op.boot [Op.ready, Op.boot] rfl (by decide)).2.1,
    (facade_setup_once okPeriph Op.boot [Op.ready, Op.boot] rfl (by decide)).2.2
      (fun _ _ => rfl)⟩

/-- C7: whatever the brightness was before the first facade call, along a sequence
of `rcp_led_boot` / `rcp_led_ready` calls started with the facade flag clear
(and the peripheral calls succeeding) every call returns, each `rcp_led_boot`
transmits the frame of GRB bytes (0, 32, 0), pure red scaled by 32, each
`rcp_led_ready` the frame of GRB bytes (32, 0, 0), pure green scaled by 32, and
the brightness is 32 after every call. -/
theorem facade_frames_at_32 (env : Periph) (hok : env.allOk) (s : State)
    (hs : s.inited = false) (ops : List Op) (hops : ∀ o ∈ ops, o.is_facade = true) :
    (∃ s1, run env ops s = .ok s1 ∧
        frames s1.trace = frames s.trace ++ ops.map facade_frame) ∧
      (∀ n, 0 < n → n ≤ ops.length → (run env (ops.take n) s).state.s_brightness = 32) ∧
      (scale (ws2812_set_brightness LED_BRIGHTNESS s) 255 = 32 ∧
        scale (ws2812_set_brightness LED_BRIGHTNESS s) 0 = 0) ∧
      (decode_frame (facade_frame Op.boot) = some (0, 32, 0) ∧
        decode_frame (facade_frame Op.ready) = some (32, 0, 0)) := by
  refine ⟨?_, ?_, ⟨?_, ?_⟩, ⟨?_, ?_⟩⟩
  rotate_left 2
  · show ((255 * (32 % 65536)) / 255) % 256 = 32
    decide
  · show ((0 * (32 % 65536)) / 255) % 256 = 0
    decide
  rotate_left 2
  · obtain ⟨s1, h1, h2, -⟩ := facade_run env hok ops hops s (Or.inl hs)
    exact ⟨s1, h1, h2⟩
  · intro n hn hle
    obtain ⟨s1, h1, -, h3⟩ := facade_run env hok (ops.take n)
      (fun o ho => hops o (List.mem_of_mem_take ho)) s (Or.inl hs)
    have hne : ops.take n ≠ [] := by
      intro h
      have hl : (ops.take n).length = n := by rw [List.length_take]; omega
      rw [h] at hl
      simp at hl
      omega
    rw [h1]
    exact (h3 hne).1
  · rw [facade_frame_boot]
    exact decode_frame_grb 0 32 0 (by decide) (by decide) (by decide)
  · rw [facade_frame_ready]
    exact decode_frame_grb 32 0 0 (by decide) (by decide) (by decide)

theorem facade_frames_at_32_witness :
    (okPeriph.allOk ∧ (ws2812_set_brightness 200 State.initial).inited = false ∧
        (∀ o ∈ [Op.boot, Op.ready, Op.ready], o.is_facade = true) ∧ 0 < 2 ∧
        2 ≤ [Op.boot, Op.ready, Op.ready].length) ∧
      (∃ s1, run okPeriph [Op.boot, Op.ready, Op.ready]
            (ws2812_set_brightness 200 State.initial) = .ok s1 ∧
          frames s1.trace = frames (ws2812_set_brightness 200 State.initial).trace ++
            [Op.boot, Op.ready, Op.ready].map facade_frame) ∧
      (run okPeriph ([Op.boot, Op.ready, Op.ready].take 2)
        (ws2812_set_brightness 200 State.initial)).state.s_brightness = 32 :=
  ⟨⟨fun _ _ => rfl, rfl, by decide, by decide, by decide⟩,
    (facade_frames_at_32 okPeriph (fun _ _ => rfl) (ws2812_set_brightness 200 State.initial) rfl
      [Op.boot, Op.ready, Op.ready] (by decide)).1,
    (facade_frames_at_32 okPeriph (fun _ _ => rfl) (ws2812_set_brightness 200 State.initial) rfl
      [Op.boot, Op.ready, Op.ready] (by decide)).2.1 2 (by decide) (by decide)⟩

/-- C10: after `ws2812_set_brightness(255)` scaling is the identity on 0..255
(`floor(v * 255 / 255) = v`), so `ws2812_set(r, g, b)` transmits the frame of the
unscaled bytes `(g, r, b)`, which the receiver reads back as `(g, r, b)`. -/
theorem full_brightness_identity (env : Periph) (hok : env.allOk) (r g b : Nat)
    (hr : r < 256) (hg : g < 256) (hb : b < 256) (s : State) :
    (scale (ws2812_set_brightness 255 s) r = r ∧ scale (ws2812_set_brightness 255 s) g = g ∧
        scale (ws2812_set_brightness 255 s) b = b) ∧
      (ws2812_set env r g b (ws2812_set_brightness 255 s)).returned = true ∧
      frames (ws2812_set env r g b (ws2812_set_brightness 255 s)).state.trace =
        frames s.trace ++ [grb_frame g r b] ∧
      decode_frame (grb_frame g r b) = some (g, r, b) := by
  have hid : ∀ v, v < 256 → scale (ws2812_set_brightness 255 s) v = v := by
    intro v hv
    rw [scale_eq _ v hv (show (255 : Nat) < 256 by decide)]
    exact Nat.mul_div_cancel v (show 0 < 255 by decide)
  obtain ⟨s1, h1, -, -, -, h5⟩ :=
    ws2812_set_returns env hok r g b (ws2812_set_brightness 255 s)
  refine ⟨⟨hid r hr, hid g hg, hid b hb⟩, ?_, ?_, decode_frame_grb g r b hg hr hb⟩
  · rw [h1]; rfl
  · rw [h1]
    simp only [Result.state]
    rw [h5, hid r hr, hid g hg, hid b hb]
    rfl

theorem full_brightness_identity_witness :
    (okPeriph.allOk ∧ 10 < 256 ∧ 20 < 256 ∧ 30 < 256) ∧
      ((scale (ws2812_set_brightness 255 State.initial) 10 = 10 ∧
          scale (ws2812_set_brightness 255 State.initial) 20 = 20 ∧
          scale (ws2812_set_brightness 255 State.initial) 30 = 30) ∧
        (ws2812_set okPeriph 10 20 30 (ws2812_set_brightness 255 State.initial)).returned = true ∧
        frames (ws2812_set okPeriph 10 20 30
            (ws2812_set_brightness 255 State.initial)).state.trace =
          frames State.initial.trace ++ [grb_frame 20 10 30] ∧
        decode_frame (grb_frame 20 10 30) = some (20, 10, 30)) :=
  ⟨⟨fun _ _ => rfl, by decide, by decide, by decide⟩,
    full_brightness_identity okPeriph (fun _ _ => rfl) 10 20 30 (by decide) (by decide)
      (by decide) State.initial⟩

/-! ## Claims on brightness -/

theorem grb_frame_zero :
    grb_frame 0 0 0 =
      List.replicate 24 { level0 := 1, duration0 := 4, level1 := 0, duration1 := 8 } := by
  decide

theorem scale_zero_brightness (s : State) (v : Nat) : scale (ws2812_set_brightness 0 s) v = 0 := by
  simp [scale, ws2812_set_brightness]

/-- C11: after `ws2812_set_brightness(0)` every channel of every color scales to
0, and the only frame `ws2812_set` hands to the transmitter is 24 copies of the
"0" symbol (level 1 for 4 ticks, level 0 for 8 ticks); when the peripheral
calls succeed the call returns having transmitted it. -/
theorem zero_brightness_blanks (env : Periph) (r g b : Nat) (s : State) :
    (scale (ws2812_set_brightness 0 s) r = 0 ∧ scale (ws2812_set_brightness 0 s) g = 0 ∧
        scale (ws2812_set_brightness 0 s) b = 0) ∧
      (frames (ws2812_set env r g b (ws2812_set_brightness 0 s)).state.trace =
          frames s.trace ++
            [List.replicate 24 { level0 := 1, duration0 := 4, level1 := 0, duration1 := 8 }] ∨
        ((ws2812_set env r g b (ws2812_set_brightness 0 s)).returned = false ∧
          frames (ws2812_set env r g b (ws2812_set_brightness 0 s)).state.trace =
            frames s.trace)) ∧
      (env.allOk →
        (ws2812_set env r g b (ws2812_set_brightness 0 s)).returned = true ∧
          frames (ws2812_set env r g b (ws2812_set_brightness 0 s)).state.trace =
            frames s.trace ++
              [List.replicate 24
                { level0 := 1, duration0 := 4, level1 := 0, duration1 := 8 }]) := by
  have hany := ws2812_set_frames env r g b (ws2812_set_brightness 0 s)
  rw [scale_zero_brightness, scale_zero_brightness, scale_zero_brightness, grb_frame_zero] at hany
  refine ⟨⟨scale_zero_brightness s r, scale_zero_brightness s g, scale_zero_brightness s b⟩,
    hany, fun hok => ?_⟩
  obtain ⟨s1, h1, -⟩ := ws2812_set_returns env hok r g b (ws2812_set_brightness 0 s)
  have hret : (ws2812_set env r g b (ws2812_set_brightness 0 s)).returned = true := by
    rw [h1]; rfl
  refine ⟨hret, ?_⟩
  rcases hany with h | ⟨h, -⟩
  · exact h
  · rw [hret] at h
    cases h

theorem zero_brightness_blanks_witness :
    okPeriph.allOk ∧
      (ws2812_set okPeriph 255 255 255 (ws2812_set_brightness 0 State.initial)).returned = true ∧
      frames (ws2812_set okPeriph 255 255 255
          (ws2812_set_brightness 0 State.initial)).state.trace =
        frames State.initial.trace ++
          [List.replicate 24 { level0 := 1, duration0 := 4, level1 := 0, duration1 := 8 }] :=
  ⟨fun _ _ => rfl,
    (zero_brightness_blanks okPeriph 255 255 255 State.initial).2.2 (fun _ _ => rfl)⟩

/-- C12: `ws2812_set_brightness(x)` returns, stores `x` as the scale factor and
changes nothing else: no peripheral call is made (nothing is transmitted, no
setup), both flags and both handles stay as they were.  Whatever the brightness
was before, the only frame the next `ws2812_set(r, g, b)` hands to the
transmitter is the one of the bytes `(floor(g*x/255), floor(r*x/255),
floor(b*x/255))`, and it is transmitted when the peripheral calls succeed. -/
theorem set_brightness_only_stores (env : Periph) (x r g b : Nat) (hx : x < 256)
    (hr : r < 256) (hg : g < 256) (hb : b < 256) (s : State) :
    step env (Op.set_brightness x) s = .ok (ws2812_set_brightness x s) ∧
      ((ws2812_set_brightness x s).s_brightness = x ∧
        (ws2812_set_brightness x s).trace = s.trace ∧
        (ws2812_set_brightness x s).s_inited = s.s_inited ∧
        (ws2812_set_brightness x s).inited = s.inited ∧
        (ws2812_set_brightness x s).s_tx_chan = s.s_tx_chan ∧
        (ws2812_set_brightness x s).s_copy_enc = s.s_copy_enc) ∧
      (frames (ws2812_set env r g b (ws2812_set_brightness x s)).state.trace =
          frames s.trace ++ [grb_frame (g * x / 255) (r * x / 255) (b * x / 255)] ∨
        ((ws2812_set env r g b (ws2812_set_brightness x s)).returned = false ∧
          frames (ws2812_set env r g b (ws2812_set_brightness x s)).state.trace =
            frames s.trace)) ∧
      (env.allOk →
        (ws2812_set env r g b (ws2812_set_brightness x s)).returned = true ∧
          frames (ws2812_set env r g b (ws2812_set_brightness x s)).state.trace =
            frames s.trace ++ [grb_frame (g * x / 255) (r * x / 255) (b * x / 255)]) := by
  have hsc : ∀ v, v < 256 → scale (ws2812_set_brightness x s) v = v * x / 255 :=
    fun v hv => scale_eq (ws2812_set_brightness x s) v hv hx
  have hany := ws2812_set_frames env r g b (ws2812_set_brightness x s)
  rw [hsc r hr, hsc g hg, hsc b hb] at hany
  refine ⟨rfl, ⟨rfl, rfl, rfl, rfl, rfl, rfl⟩, hany, fun hok => ?_⟩
  obtain ⟨s1, h1, -⟩ := ws2812_set_returns env hok r g b (ws2812_set_brightness x s)
  have hret : (ws2812_set env r g b (ws2812_set_brightness x s)).returned = true := by
    rw [h1]; rfl
  refine ⟨hret, ?_⟩
  rcases hany with h | ⟨h, -⟩
  · exact h
  · rw [hret] at h
    cases h

theorem set_brightness_only_stores_witness :
    (128 < 256 ∧ 10 < 256 ∧ 20 < 256 ∧ 30 < 256 ∧ okPeriph.allOk) ∧
      (ws2812_set_brightness 128 State.initial).trace = State.initial.trace ∧
      (ws2812_set okPeriph 10 20 30 (ws2812_set_brightness 128 State.initial)).returned = true ∧
      frames (ws2812_set okPeriph 10 20 30
          (ws2812_set_brightness 128 State.initial)).state.trace =
        frames State.initial.trace ++
          [grb_frame (20 * 128 / 255) (10 * 128 / 255) (30 * 128 / 255)] :=
  ⟨⟨by decide, by decide, by decide, by decide, fun _ _ => rfl⟩,
    (set_brightness_only_stores okPeriph 128 10 20 30 (by decide) (by decide) (by decide)
      (by decide) State.initial).2.1.2.1,
    (set_brightness_only_stores okPeriph 128 10 20 30 (by decide) (by decide) (by decide)
      (by decide) State.initial).2.2.2 (fun _ _ => rfl)⟩

/-! ## Further claims on `scale` -/

/-- C18: `scale` is monotone in the channel value and in the brightness, over
0..255, and exact at the end points: `scale(0) = 0` and `scale(255)` is the
brightness itself. -/
theorem scale_monotone (s1 s2 : State) (v1 v2 : Nat) (hv : v1 ≤ v2) (hv2 : v2 < 256)
    (hb : s1.s_brightness ≤ s2.s_brightness) (hb2 : s2.s_brightness < 256) :
    scale s1 v1 ≤ scale s2 v2 ∧ scale s2 0 = 0 ∧ scale s2 255 = s2.s_brightness := by
  have e1 := scale_eq s1 v1 (by omega) (by omega)
  have e2 := scale_eq s2 v2 hv2 hb2
  have e3 := scale_eq s2 0 (by decide) hb2
  have e4 := scale_eq s2 255 (by decide) hb2
  refine ⟨?_, ?_, ?_⟩
  · rw [e1, e2]
    exact Nat.div_le_div_right (Nat.mul_le_mul hv hb)
  · rw [e3]
    simp
  · rw [e4]
    exact Nat.mul_div_cancel_left _ (by decide)

theorem scale_monotone_witness :
    (100 ≤ 200 ∧ 200 < 256 ∧
        (ws2812_set_brightness 32 State.initial).s_brightness ≤
          (ws2812_set_brightness 64 State.initial).s_brightness ∧
        (ws2812_set_brightness 64 State.initial).s_brightness < 256) ∧
      (scale (ws2812_set_brightness 32 State.initial) 100 ≤
          scale (ws2812_set_brightness 64 State.initial) 200 ∧
        scale (ws2812_set_brightness 64 State.initial) 0 = 0 ∧
        scale (ws2812_set_brightness 64 State.initial) 255 =
          (ws2812_set_brightness 64 State.initial).s_brightness) :=
  ⟨⟨by decide, by decide, by decide, by decide⟩,
    scale_monotone (ws2812_set_brightness 32 State.initial)
      (ws2812_set_brightness 64 State.initial) 100 200 (by decide) (by decide) (by decide)
      (by decide)⟩

/-! ## Claims on failure handling and the initialized flag -/

/-- C15: `ws2812_init` is all-or-abort.  With the three setup calls answered by
the environment, it returns (with `s_inited` set) exactly when
`rmt_new_tx_channel`, `rmt_new_copy_encoder` and `rmt_enable` all succeed, made
in that order; when one fails the process aborts at that call, the later calls
are not made and `s_inited` is left as it was. -/
theorem ws2812_init_all_or_abort (env : Periph) (s : State) :
    (((ws2812_init env s).returned = true ∧ (ws2812_init env s).state.s_inited = true) ↔
        (env.ret s.trace tx_channel_call = ESP_OK ∧
          env.ret (s.trace ++ [tx_channel_call]) Event.rmt_new_copy_encoder = ESP_OK ∧
          env.ret (s.trace ++ [tx_channel_call, Event.rmt_new_copy_encoder])
            (Event.rmt_enable (env.handle s.trace tx_channel_call)) = ESP_OK)) ∧
      ((ws2812_init env s).returned = true →
        (ws2812_init env s).state.s_inited = true ∧
          (ws2812_init env s).state.trace =
            s.trace ++ [tx_channel_call, Event.rmt_new_copy_encoder,
              Event.rmt_enable (env.handle s.trace tx_channel_call)]) ∧
      (env.ret s.trace tx_channel_call ≠ ESP_OK →
        (ws2812_init env s).returned = false ∧
          (ws2812_init env s).state.trace = s.trace ++ [tx_channel_call] ∧
          (ws2812_init env s).state.s_inited = s.s_inited) ∧
      (env.ret s.trace tx_channel_call = ESP_OK →
        env.ret (s.trace ++ [tx_channel_call]) Event.rmt_new_copy_encoder ≠ ESP_OK →
        (ws2812_init env s).returned = false ∧
          (ws2812_init env s).state.trace =
            s.trace ++ [tx_channel_call, Event.rmt_new_copy_encoder] ∧
          (ws2812_init env s).state.s_inited = s.s_inited) ∧
      (env.ret s.trace tx_channel_call = ESP_OK →
        env.ret (s.trace ++ [tx_channel_call]) Event.rmt_new_copy_encoder = ESP_OK →
        env.ret (s.trace ++ [tx_channel_call, Event.rmt_new_copy_encoder])
          (Event.rmt_enable (env.handle s.trace tx_channel_call)) ≠ ESP_OK →
        (ws2812_init env s).returned = false ∧
          (ws2812_init env s).state.trace =
            s.trace ++ [tx_channel_call, Event.rmt_new_copy_encoder,
              Event.rmt_enable (env.handle s.trace tx_channel_call)] ∧
          (ws2812_init env s).state.s_inited = s.s_inited) := by
  rw [ws2812_init_unfold]
  simp only [ESP_OK]
  by_cases h1 : env.ret s.trace tx_channel_call = 0
  · by_cases h2 : env.ret (s.trace ++ [tx_channel_call]) Event.rmt_new_copy_encoder = 0
    · by_cases h3 : env.ret (s.trace ++ [tx_channel_call, Event.rmt_new_copy_encoder])
          (Event.rmt_enable (env.handle s.trace tx_channel_call)) = 0
      · simp [h1, h2, h3, Result.returned, Result.state]
      · simp [h1, h2, h3, Result.returned, Result.state]
    · simp [h1, h2, Result.returned, Result.state]
  · simp [h1, Result.returned, Result.state]

theorem ws2812_init_all_or_abort_witness :
    ((okPeriph.ret State.initial.trace tx_channel_call = ESP_OK ∧
          okPeriph.ret (State.initial.trace ++ [tx_channel_call]) Event.rmt_new_copy_encoder =
            ESP_OK ∧
          okPeriph.ret (State.initial.trace ++ [tx_channel_call, Event.rmt_new_copy_encoder])
            (Event.rmt_enable (okPeriph.handle State.initial.trace tx_channel_call)) = ESP_OK) ∧
        (ws2812_init okPeriph State.initial).returned = true ∧
        (ws2812_init okPeriph State.initial).state.s_inited = true) ∧
      ((failAtPeriph 0).ret State.initial.trace tx_channel_call ≠ ESP_OK ∧
        (ws2812_init (failAtPeriph 0) State.initial).returned = false ∧
        (ws2812_init (failAtPeriph 0) State.initial).state.trace =
          State.initial.trace ++ [tx_channel_call] ∧
        (ws2812_init (failAtPeriph 0) State.initial).state.s_inited =
          State.initial.s_inited) ∧
      (((failAtPeriph 1).ret State.initial.trace tx_channel_call = ESP_OK ∧
          (failAtPeriph 1).ret (State.initial.trace ++ [tx_channel_call])
            Event.rmt_new_copy_encoder ≠ ESP_OK) ∧
        (ws2812_init (failAtPeriph 1) State.initial).returned = false ∧
        (ws2812_init (failAtPeriph 1) State.initial).state.trace =
          State.initial.trace ++ [tx_channel_call, Event.rmt_new_copy_encoder] ∧
        (ws2812_init (failAtPeriph 1) State.initial).state.s_inited =
          State.initial.s_inited) ∧
      (((failAtPeriph 2).ret State.initial.trace tx_channel_call = ESP_OK ∧
          (failAtPeriph 2).ret (State.initial.trace ++ [tx_channel_call])
            Event.rmt_new_copy_encoder = ESP_OK ∧
          (failAtPeriph 2).ret
            (State.initial.trace ++ [tx_channel_call, Event.rmt_new_copy_encoder])
            (Event.rmt_enable ((failAtPeriph 2).handle State.initial.trace tx_channel_call)) ≠
              ESP_OK) ∧
        (ws2812_init (failAtPeriph 2) State.initial).returned = false ∧
        (ws2812_init (failAtPeriph 2) State.initial).state.trace =
          State.initial.trace ++ [tx_channel_call, Event.rmt_new_copy_encoder,
            Event.rmt_enable ((failAtPeriph 2).handle State.initial.trace tx_channel_call)] ∧
        (ws2812_init (failAtPeriph 2) State.initial).state.s_inited =
          State.initial.s_inited) :=
  ⟨⟨⟨rfl, rfl, rfl⟩, (ws2812_init_all_or_abort okPeriph State.initial).1.2 ⟨rfl, rfl, rfl⟩⟩,
    ⟨by decide, (ws2812_init_all_or_abort (failAtPeriph 0) State.initial).2.2.1 (by decide)⟩,
    ⟨⟨by decide, by decide⟩,
      (ws2812_init_all_or_abort (failAtPeriph 1) State.initial).2.2.2.1 (by decide)
        (by decide)⟩,
    ⟨⟨by decide, by decide, by decide⟩,
      (ws2812_init_all_or_abort (failAtPeriph 2) State.initial).2.2.2.2 (by decide) (by decide)
        (by decide)⟩⟩

theorem transmit_bytes : 24 * sizeof_rmt_symbol_word_t = 96 := rfl

theorem ws2812_init_trace (env : Periph) (s : State) :
    ∃ evs, (ws2812_init env s).state.trace = s.trace ++ evs ∧
      (∀ e ∈ evs, e.frame = none) ∧
      (ws2812_init env s).state.s_brightness = s.s_brightness := by
  rw [ws2812_init_unfold]
  split_ifs
  · exact ⟨_, rfl, by simp [Event.frame, tx_channel_call], rfl⟩
  · exact ⟨_, rfl, by simp [Event.frame, tx_channel_call], rfl⟩
  · exact ⟨_, rfl, by simp [Event.frame, tx_channel_call], rfl⟩
  · exact ⟨_, rfl, by simp [Event.frame, tx_channel_call], rfl⟩

/-- The transmit part of `ws2812_set`, entered with the driver initialized. -/
theorem ws2812_set_transmit_part (env : Periph) (r g b : Nat) (s : State)
    (h : s.s_inited = true) :
    ((ws2812_set env r g b s).returned = true ↔
        env.ret s.trace
            (Event.rmt_transmit s.s_tx_chan s.s_copy_enc
              (grb_frame (scale s g) (scale s r) (scale s b))
              (24 * sizeof_rmt_symbol_word_t) 0) = ESP_OK ∧
          env.ret (s.trace ++ [Event.rmt_transmit s.s_tx_chan s.s_copy_enc
              (grb_frame (scale s g) (scale s r) (scale s b))
              (24 * sizeof_rmt_symbol_word_t) 0])
            (Event.rmt_tx_wait_all_done s.s_tx_chan 50) = ESP_OK) ∧
      (env.ret s.trace
            (Event.rmt_transmit s.s_tx_chan s.s_copy_enc
              (grb_frame (scale s g) (scale s r) (scale s b))
              (24 * sizeof_rmt_symbol_word_t) 0) ≠ ESP_OK →
        (ws2812_set env r g b s).returned = false ∧
          (ws2812_set env r g b s).state.trace =
            s.trace ++ [Event.rmt_transmit s.s_tx_chan s.s_copy_enc
              (grb_frame (scale s g) (scale s r) (scale s b))
              (24 * sizeof_rmt_symbol_word_t) 0]) ∧
      (env.ret s.trace
            (Event.rmt_transmit s.s_tx_chan s.s_copy_enc
              (grb_frame (scale s g) (scale s r) (scale s b))
              (24 * sizeof_rmt_symbol_word_t) 0) = ESP_OK →
        env.ret (s.trace ++ [Event.rmt_transmit s.s_tx_chan s.s_copy_enc
              (grb_frame (scale s g) (scale s r) (scale s b))
              (24 * sizeof_rmt_symbol_word_t) 0])
            (Event.rmt_tx_wait_all_done s.s_tx_chan 50) ≠ ESP_OK →
        (ws2812_set env r g b s).returned = false ∧
          (ws2812_set env r g b s).state.trace =
            s.trace ++ [Event.rmt_transmit s.s_tx_chan s.s_copy_enc
              (grb_frame (scale s g) (scale s r) (scale s b))
              (24 * sizeof_rmt_symbol_word_t) 0,
              Event.rmt_tx_wait_all_done s.s_tx_chan 50]) ∧
      (∃ evs, (ws2812_set env r g b s).state.trace = s.trace ++ evs ∧
        ∀ chan enc f n l, Event.rmt_transmit chan enc f n l ∈ evs →
          f = grb_frame (scale s g) (scale s r) (scale s b) ∧ f.length = 24 ∧
            n = 24 * sizeof_rmt_symbol_word_t) := by
  have hlen := grb_frame_length (scale s g) (scale s r) (scale s b)
  rw [ws2812_set_of_inited env r g b s h, transmit_call_eq, transmit_bytes]
  simp only [ESP_OK]
  by_cases h1 : env.ret s.trace (Event.rmt_transmit s.s_tx_chan s.s_copy_enc
      (grb_frame (scale s g) (scale s r) (scale s b)) 96 0) = 0
  · by_cases h2 : env.ret (s.trace ++ [Event.rmt_transmit s.s_tx_chan s.s_copy_enc
        (grb_frame (scale s g) (scale s r) (scale s b)) 96 0])
        (Event.rmt_tx_wait_all_done s.s_tx_chan 50) = 0
    · simp [h1, h2, Result.returned, Result.state, hlen]
      intro _ _ f n _ _ _ hf hn _
      subst hf hn
      exact ⟨rfl, hlen, rfl⟩
    · simp [h1, h2, Result.returned, Result.state, hlen]
      intro _ _ f n _ _ _ hf hn _
      subst hf hn
      exact ⟨rfl, hlen, rfl⟩
  · simp [h1, Result.returned, Result.state, hlen]
    intro _ _ f n _ _ _ hf hn _
    subst hf hn
    exact ⟨rfl, hlen, rfl⟩

theorem scale_congr (s s1 : State) (h : s1.s_brightness = s.s_brightness) (v : Nat) :
    scale s1 v = scale s v := by
  unfold scale
  rw [h]

/-- C13: no partial frames.  `ws2812_set` returns exactly when it reaches the
transmit (its lazy setup, if any, succeeded), `rmt_transmit` is given the
complete 24-symbol frame (24 symbol words) and succeeds, and
`rmt_tx_wait_all_done` (50 ms) succeeds; if either of the two fails the process
aborts at that call.  Every transmit the call makes carries exactly the 24
symbols of the frame. -/
theorem ws2812_set_no_partial_frame (env : Periph) (r g b : Nat) (s : State) :
    ((ws2812_set env r g b s).returned = true ↔
        ∃ s1, (if !s.s_inited then ws2812_init env s else .ok s) = .ok s1 ∧
          env.ret s1.trace
            (Event.rmt_transmit s1.s_tx_chan s1.s_copy_enc
              (grb_frame (scale s g) (scale s r) (scale s b))
              (24 * sizeof_rmt_symbol_word_t) 0) = ESP_OK ∧
          env.ret (s1.trace ++ [Event.rmt_transmit s1.s_tx_chan s1.s_copy_enc
              (grb_frame (scale s g) (scale s r) (scale s b))
              (24 * sizeof_rmt_symbol_word_t) 0])
            (Event.rmt_tx_wait_all_done s1.s_tx_chan 50) = ESP_OK) ∧
      (∀ s1, (if !s.s_inited then ws2812_init env s else .ok s) = .ok s1 →
        env.ret s1.trace
            (Event.rmt_transmit s1.s_tx_chan s1.s_copy_enc
              (grb_frame (scale s g) (scale s r) (scale s b))
              (24 * sizeof_rmt_symbol_word_t) 0) ≠ ESP_OK →
        (ws2812_set env r g b s).returned = false ∧
          (ws2812_set env r g b s).state.trace =
            s1.trace ++ [Event.rmt_transmit s1.s_tx_chan s1.s_copy_enc
              (grb_frame (scale s g) (scale s r) (scale s b))
              (24 * sizeof_rmt_symbol_word_t) 0]) ∧
      (∀ s1, (if !s.s_inited then ws2812_init env s else .ok s) = .ok s1 →
        env.ret s1.trace
            (Event.rmt_transmit s1.s_tx_chan s1.s_copy_enc
              (grb_frame (scale s g) (scale s r) (scale s b))
              (24 * sizeof_rmt_symbol_word_t) 0) = ESP_OK →
        env.ret (s1.trace ++ [Event.rmt_transmit s1.s_tx_chan s1.s_copy_enc
              (grb_frame (scale s g) (scale s r) (scale s b))
              (24 * sizeof_rmt_symbol_word_t) 0])
            (Event.rmt_tx_wait_all_done s1.s_tx_chan 50) ≠ ESP_OK →
        (ws2812_set env r g b s).returned = false ∧
          (ws2812_set env r g b s).state.trace =
            s1.trace ++ [Event.rmt_transmit s1.s_tx_chan s1.s_copy_enc
              (grb_frame (scale s g) (scale s r) (scale s b))
              (24 * sizeof_rmt_symbol_word_t) 0,
              Event.rmt_tx_wait_all_done s1.s_tx_chan 50]) ∧
      (∃ evs, (ws2812_set env r g b s).state.trace = s.trace ++ evs ∧
        ∀ chan enc f n l, Event.rmt_transmit chan enc f n l ∈ evs →
          f = grb_frame (scale s g) (scale s r) (scale s b) ∧ f.length = 24 ∧
            n = 24 * sizeof_rmt_symbol_word_t) := by
  cases h : s.s_inited with
  | true =>
    have hp := ws2812_set_transmit_part env r g b s h
    simp only [Bool.not_true, Bool.false_eq_true, if_false]
    refine ⟨?_, ?_, ?_, hp.2.2.2⟩
    · rw [hp.1]
      constructor
      · intro hh
        exact ⟨s, rfl, hh⟩
      · rintro ⟨s1, e, hh⟩
        cases e
        exact hh
    · intro s1 e
      cases e
      exact hp.2.1
    · intro s1 e
      cases e
      exact hp.2.2.1
  | false =>
    simp only [Bool.not_false, if_true]
    rw [ws2812_set_lazy env r g b s h]
    obtain ⟨ievs, ht, hfr, hbr⟩ := ws2812_init_trace env s
    cases hA : ws2812_init env s with
    | ok s1 =>
      rw [hA] at ht hbr
      simp only [Result.state] at ht hbr
      have h1 := ws2812_init_ok_inited env s s1 hA
      have hp := ws2812_set_transmit_part env r g b s1 h1
      simp only [scale_congr s s1 hbr] at hp
      simp only [Result.bind]
      refine ⟨?_, ?_, ?_, ?_⟩
      · rw [hp.1]
        constructor
        · intro hh
          exact ⟨s1, rfl, hh⟩
        · rintro ⟨s2, e, hh⟩
          cases e
          exact hh
      · intro s2 e
        cases e
        exact hp.2.1
      · intro s2 e
        cases e
        exact hp.2.2.1
      · obtain ⟨evs, he, hall⟩ := hp.2.2.2
        refine ⟨ievs ++ evs, by rw [he, ht, List.append_assoc], ?_⟩
        intro chan enc f n l hmem
        rcases List.mem_append.1 hmem with hm | hm
        · have := hfr _ hm
          simp [Event.frame] at this
        · exact hall chan enc f n l hm
    | abort s1 =>
      rw [hA] at ht
      simp only [Result.state] at ht
      simp only [Result.bind, Result.returned, Result.state]
      refine ⟨⟨?_, ?_⟩, ?_, ?_, ⟨ievs, ht, ?_⟩⟩
      · intro hh
        cases hh
      · rintro ⟨s2, e, -⟩
        cases e
      · intro s2 e
        cases e
      · intro s2 e
        cases e
      · intro chan enc f n l hm
        have := hfr _ hm
        simp [Event.frame] at this

theorem ws2812_set_no_partial_frame_witness :
    ((∃ s1, (if !State.initial.s_inited then ws2812_init okPeriph State.initial
              else .ok State.initial) = .ok s1 ∧
          okPeriph.ret s1.trace
            (Event.rmt_transmit s1.s_tx_chan s1.s_copy_enc
              (grb_frame (scale State.initial 20) (scale State.initial 10)
                (scale State.initial 30))
              (24 * sizeof_rmt_symbol_word_t) 0) = ESP_OK ∧
          okPeriph.ret (s1.trace ++ [Event.rmt_transmit s1.s_tx_chan s1.s_copy_enc
              (grb_frame (scale State.initial 20) (scale State.initial 10)
                (scale State.initial 30))
              (24 * sizeof_rmt_symbol_word_t) 0])
            (Event.rmt_tx_wait_all_done s1.s_tx_chan 50) = ESP_OK) ∧
        (ws2812_set okPeriph 10 20 30 State.initial).returned = true) ∧
      (((if !State.initial.s_inited then ws2812_init (failAtPeriph 3) State.initial
            else .ok State.initial) = .ok (ws2812_init (failAtPeriph 3) State.initial).state ∧
          (failAtPeriph 3).ret (ws2812_init (failAtPeriph 3) State.initial).state.trace
            (Event.rmt_transmit (ws2812_init (failAtPeriph 3) State.initial).state.s_tx_chan
              (ws2812_init (failAtPeriph 3) State.initial).state.s_copy_enc
              (grb_frame (scale State.initial 20) (scale State.initial 10)
                (scale State.initial 30))
              (24 * sizeof_rmt_symbol_word_t) 0) ≠ ESP_OK) ∧
        (ws2812_set (failAtPeriph 3) 10 20 30 State.initial).returned = false ∧
        (ws2812_set (failAtPeriph 3) 10 20 30 State.initial).state.trace =
          (ws2812_init (failAtPeriph 3) State.initial).state.trace ++
            [(Event.rmt_transmit (ws2812_init (failAtPeriph 3) State.initial).state.s_tx_chan
              (ws2812_init (failAtPeriph 3) State.initial).state.s_copy_enc
              (grb_frame (scale State.initial 20) (scale State.initial 10)
                (scale State.initial 30))
              (24 * sizeof_rmt_symbol_word_t) 0)]) ∧
      (((if !State.initial.s_inited then ws2812_init (failAtPeriph 4) State.initial
            else .ok State.initial) = .ok (ws2812_init (failAtPeriph 4) State.initial).state ∧
          (failAtPeriph 4).ret (ws2812_init (failAtPeriph 4) State.initial).state.trace
            (Event.rmt_transmit (ws2812_init (failAtPeriph 4) State.initial).state.s_tx_chan
              (ws2812_init (failAtPeriph 4) State.initial).state.s_copy_enc
              (grb_frame (scale State.initial 20) (scale State.initial 10)
                (scale State.initial 30))
              (24 * sizeof_rmt_symbol_word_t) 0) = ESP_OK ∧
          (failAtPeriph 4).ret ((ws2812_init (failAtPeriph 4) State.initial).state.trace ++
              [(Event.rmt_transmit (ws2812_init (failAtPeriph 4) State.initial).state.s_tx_chan
              (ws2812_init (failAtPeriph 4) State.initial).state.s_copy_enc
              (grb_frame (scale State.initial 20) (scale State.initial 10)
                (scale State.initial 30))
              (24 * sizeof_rmt_symbol_word_t) 0)])
            (Event.rmt_tx_wait_all_done
              (ws2812_init (failAtPeriph 4) State.initial).state.s_tx_chan 50) ≠ ESP_OK) ∧
        (ws2812_set (failAtPeriph 4) 10 20 30 State.initial).returned = false ∧
        (ws2812_set (failAtPeriph 4) 10 20 30 State.initial).state.trace =
          (ws2812_init (failAtPeriph 4) State.initial).state.trace ++
            [(Event.rmt_transmit (ws2812_init (failAtPeriph 4) State.initial).state.s_tx_chan
              (ws2812_init (failAtPeriph 4) State.initial).state.s_copy_enc
              (grb_frame (scale State.initial 20) (scale State.initial 10)
                (scale State.initial 30))
              (24 * sizeof_rmt_symbol_word_t) 0),
              Event.rmt_tx_wait_all_done
                (ws2812_init (failAtPeriph 4) State.initial).state.s_tx_chan 50]) :=
  ⟨⟨⟨_, rfl, rfl, rfl⟩,
      (ws2812_set_no_partial_frame okPeriph 10 20 30 State.initial).1.2 ⟨_, rfl, rfl, rfl⟩⟩,
    ⟨⟨rfl, by decide⟩,
      (ws2812_set_no_partial_frame (failAtPeriph 3) 10 20 30 State.initial).2.1 _ rfl
        (by decide)⟩,
    ⟨⟨rfl, by decide, by decide⟩,
      (ws2812_set_no_partial_frame (failAtPeriph 4) 10 20 30 State.initial).2.2.1 _ rfl
        (by decide) (by decide)⟩⟩

/-! ## Flags along call sequences -/

theorem ws2812_init_flags (env : Periph) (s : State) :
    (ws2812_init env s).state.s_inited = (s.s_inited || (ws2812_init env s).returned) ∧
      (ws2812_init env s).state.inited = s.inited := by
  rw [ws2812_init_unfold]
  split_ifs <;> simp [Result.state, Result.returned]

theorem ws2812_set_flags (env : Periph) (r g b : Nat) (s : State) :
    (ws2812_set env r g b s).state.inited = s.inited ∧
      (s.s_inited = true → (ws2812_set env r g b s).state.s_inited = true) ∧
      ((ws2812_set env r g b s).returned = true →
        (ws2812_set env r g b s).state.s_inited = true) ∧
      (ws2812_set env r g b s).state.s_brightness = s.s_brightness := by
  cases h : s.s_inited with
  | true =>
    have hs := ws2812_set_count env _ (Or.inl rfl) r g b s h
    exact ⟨hs.2.1, fun _ => hs.2.2.2, fun _ => hs.2.2.2, hs.2.2.1⟩
  | false =>
    have hs := ws2812_set_count_lazy env _ (Or.inl rfl) r g b s h
    exact ⟨hs.2.2.1, fun hh => Bool.noConfusion hh, fun hr => (hs.2.1 hr).2, hs.2.2.2⟩

theorem led_init_once_ok (env : Periph) (s s1 : State)
    (hinv : s.inited = true → s.s_inited = true) (h : led_init_once env s = .ok s1) :
    s1.s_inited = true ∧ s1.inited = true := by
  cases hf : s.inited with
  | true =>
    rw [led_init_once_done env s hf] at h
    cases h
    exact ⟨hinv hf, hf⟩
  | false =>
    simp only [led_init_once, hf, Bool.not_false, if_true] at h
    cases hA : ws2812_init env s with
    | ok s0 =>
      rw [hA] at h
      simp only [Result.bind] at h
      cases h
      exact ⟨ws2812_init_ok_inited env s s0 hA, rfl⟩
    | abort s0 =>
      rw [hA] at h
      cases h

theorem facade_flags (env : Periph) (r g b : Nat) (s : State) :
    (s.s_inited = true →
        ((led_init_once env s).bind (ws2812_set env r g b)).state.s_inited = true) ∧
      ((s.inited = true → s.s_inited = true) →
        ((led_init_once env s).bind (ws2812_set env r g b)).state.inited = true →
        ((led_init_once env s).bind (ws2812_set env r g b)).state.s_inited = true) := by
  cases hf : s.inited with
  | true =>
    rw [led_init_once_done env s hf]
    simp only [Result.bind]
    have hs := ws2812_set_flags env r g b s
    exact ⟨hs.2.1, fun hinv _ => hs.2.1 (hinv (by simp))⟩
  | false =>
    rw [facade_first env r g b s hf]
    have hi := ws2812_init_flags env s
    cases hA : ws2812_init env s with
    | ok s0 =>
      have h0 := ws2812_init_ok_inited env s s0 hA
      have hs := ws2812_set_flags env r g b
        { ws2812_set_brightness LED_BRIGHTNESS s0 with inited := true }
      simp only [Result.bind]
      exact ⟨fun _ => hs.2.1 h0, fun _ _ => hs.2.1 h0⟩
    | abort s0 =>
      rw [hA] at hi
      simp only [Result.state, Result.returned, Bool.or_false] at hi
      simp only [Result.bind, Result.state]
      refine ⟨fun h => by rw [hi.1]; exact h, fun _ h => ?_⟩
      rw [hi.2, hf] at h
      cases h

/-- No public call clears the driver flag, whether it returns or aborts. -/
theorem step_keeps_s_inited (env : Periph) (op : Op) (s : State) (h : s.s_inited = true) :
    (step env op s).state.s_inited = true := by
  cases op with
  | init =>
    simp only [step]
    rw [(ws2812_init_flags env s).1, h]
    rfl
  | set r g b => exact (ws2812_set_flags env r g b s).2.1 h
  | set_brightness x => exact h
  | boot => exact (facade_flags env 255 0 0 s).1 h
  | ready => exact (facade_flags env 0 255 0 s).1 h

/-- Every public call preserves "facade flag set implies driver flag set",
whether it returns or aborts. -/
theorem step_inv (env : Periph) (op : Op) (s : State)
    (hinv : s.inited = true → s.s_inited = true) :
    (step env op s).state.inited = true → (step env op s).state.s_inited = true := by
  cases op with
  | init =>
    simp only [step]
    intro h
    rw [(ws2812_init_flags env s).2] at h
    rw [(ws2812_init_flags env s).1, hinv h]
    rfl
  | set r g b =>
    simp only [step]
    intro h
    rw [(ws2812_set_flags env r g b s).1] at h
    exact (ws2812_set_flags env r g b s).2.1 (hinv h)
  | set_brightness x => exact hinv
  | boot => exact (facade_flags env 255 0 0 s).2 hinv
  | ready => exact (facade_flags env 0 255 0 s).2 hinv

theorem run_keeps_s_inited (env : Periph) (ops : List Op) :
    ∀ s : State, s.s_inited = true → (run env ops s).state.s_inited = true := by
  induction ops with
  | nil => intro s h; exact h
  | cons op rest ih =>
    intro s h
    have hs := step_keeps_s_inited env op s h
    simp only [run]
    cases hA : step env op s with
    | ok s1 =>
      rw [hA] at hs
      exact ih s1 hs
    | abort s1 =>
      rw [hA] at hs
      exact hs

theorem run_inv (env : Periph) (ops : List Op) :
    ∀ s : State, (s.inited = true → s.s_inited = true) →
      (run env ops s).state.inited = true → (run env ops s).state.s_inited = true := by
  induction ops with
  | nil => intro s h; exact h
  | cons op rest ih =>
    intro s h
    have hs := step_inv env op s h
    simp only [run]
    cases hA : step env op s with
    | ok s1 =>
      rw [hA] at hs
      exact ih s1 hs
    | abort s1 =>
      rw [hA] at hs
      exact hs

theorem run_brightness_only (env : Periph) (xs : List Nat) :
    ∀ s : State, ∃ s1, run env (xs.map Op.set_brightness) s = .ok s1 ∧
      s1.s_inited = s.s_inited ∧ s1.inited = s.inited ∧ s1.trace = s.trace := by
  induction xs with
  | nil => intro s; exact ⟨s, rfl, rfl, rfl, rfl⟩
  | cons x rest ih =>
    intro s
    obtain ⟨s1, h1, h2, h3, h4⟩ := ih (ws2812_set_brightness x s)
    exact ⟨s1, h1, h2, h3, h4⟩

/-- C14: the driver flag is a two-state machine.  `s_inited` is false at process
start; it is true after any `ws2812_init` or `ws2812_set` that returns (and
both return when the peripheral calls succeed); once true, no public call and
no sequence of public calls sets it back to false, whether the calls return or
abort; `ws2812_set_brightness` leaves it as it is, so calls of it alone never
leave the uninitialized state. -/
theorem s_inited_state_machine (env : Periph) (r g b x : Nat) (op : Op) (ops : List Op)
    (xs : List Nat) (s : State) :
    State.initial.s_inited = false ∧
      ((ws2812_init env s).returned = true → (ws2812_init env s).state.s_inited = true) ∧
      ((ws2812_set env r g b s).returned = true →
        (ws2812_set env r g b s).state.s_inited = true) ∧
      (env.allOk →
        (ws2812_init env s).returned = true ∧ (ws2812_set env r g b s).returned = true) ∧
      (s.s_inited = true →
        (step env op s).state.s_inited = true ∧ (run env ops s).state.s_inited = true) ∧
      (ws2812_set_brightness x s).s_inited = s.s_inited ∧
      ((run env (xs.map Op.set_brightness) State.initial).returned = true ∧
        (run env (xs.map Op.set_brightness) State.initial).state.s_inited = false ∧
        (run env (xs.map Op.set_brightness) State.initial).state.trace = []) := by
  refine ⟨rfl, ?_, (ws2812_set_flags env r g b s).2.2.1, ?_, ?_, rfl, ?_⟩
  · intro hr
    rw [(ws2812_init_flags env s).1, hr]
    simp
  · intro hok
    obtain ⟨s1, h1, -⟩ := ws2812_set_returns env hok r g b s
    rw [ws2812_init_allOk env hok s, h1]
    exact ⟨rfl, rfl⟩
  · intro h
    exact ⟨step_keeps_s_inited env op s h, run_keeps_s_inited env ops s h⟩
  · obtain ⟨s1, h1, h2, -, h4⟩ := run_brightness_only env xs State.initial
    rw [h1]
    exact ⟨rfl, h2, h4⟩

theorem s_inited_state_machine_witness :
    ((ws2812_init okPeriph State.initial).returned = true ∧
        (ws2812_init okPeriph State.initial).state.s_inited = true) ∧
      ((ws2812_set okPeriph 1 2 3 State.initial).returned = true ∧
        (ws2812_set okPeriph 1 2 3 State.initial).state.s_inited = true) ∧
      (okPeriph.allOk ∧
        (ws2812_init okPeriph (ws2812_init okPeriph State.initial).state).returned = true ∧
        (ws2812_set okPeriph 1 2 3 (ws2812_init okPeriph State.initial).state).returned =
          true) ∧
      ((step failPeriph Op.boot (ws2812_init okPeriph State.initial).state).state.s_inited =
          true ∧
        (run failPeriph [Op.set 1 2 3, Op.init]
          (ws2812_init okPeriph State.initial).state).state.s_inited = true) :=
  ⟨⟨rfl, (s_inited_state_machine okPeriph 1 2 3 0 Op.boot [] [] State.initial).2.1 rfl⟩,
    ⟨rfl, (s_inited_state_machine okPeriph 1 2 3 0 Op.boot [] [] State.initial).2.2.1 rfl⟩,
    ⟨fun _ _ => rfl,
      (s_inited_state_machine okPeriph 1 2 3 0 Op.boot [Op.set 1 2 3, Op.init] []
        (ws2812_init okPeriph State.initial).state).2.2.2.1 (fun _ _ => rfl)⟩,
    (s_inited_state_machine failPeriph 1 2 3 0 Op.boot [Op.set 1 2 3, Op.init] []
      (ws2812_init okPeriph State.initial).state).2.2.2.2.1 rfl⟩

/-- C17: in every state reached from process start by public calls (the run
having returned or aborted), the facade flag being set implies the driver flag
is set.  Consequently, when a facade call is made in such a state, the state in
which it enters `ws2812_set` (the one `led_init_once` returns) has `s_inited`
set, so the guard of the lazy setup is not taken. -/
theorem facade_flag_implies_driver_flag (env : Periph) (ops : List Op) :
    ((run env ops State.initial).state.inited = true →
        (run env ops State.initial).state.s_inited = true) ∧
      (∀ s op s1, run env ops State.initial = .ok s → op.is_facade = true →
        led_init_once env s = .ok s1 →
        step env op s = step env (color_set op) s1 ∧
          (∃ r g b, color_set op = Op.set r g b) ∧
          s1.s_inited = true ∧
          (if !s1.s_inited then ws2812_init env s1 else .ok s1) = .ok s1) := by
  have hinv0 : State.initial.inited = true → State.initial.s_inited = true :=
    fun h => Bool.noConfusion h
  have hrun := run_inv env ops State.initial hinv0
  refine ⟨hrun, ?_⟩
  intro s op s1 hs hop h1
  rw [hs] at hrun
  have hk := (led_init_once_ok env s s1 hrun h1).1
  obtain ⟨r, g, b, hc, -⟩ := facade_frame_eq op hop
  refine ⟨?_, ⟨r, g, b, hc⟩, hk, ?_⟩
  · rw [step_facade env op hop s, h1]
    rfl
  · rw [hk]
    rfl

theorem facade_flag_implies_driver_flag_witness :
    ((run okPeriph [Op.set 1 2 3, Op.boot] State.initial).state.inited = true ∧
        run okPeriph [Op.set 1 2 3, Op.boot] State.initial =
          .ok (run okPeriph [Op.set 1 2 3, Op.boot] State.initial).state ∧
        Op.ready.is_facade = true ∧
        led_init_once okPeriph (run okPeriph [Op.set 1 2 3, Op.boot] State.initial).state =
          .ok (run okPeriph [Op.set 1 2 3, Op.boot] State.initial).state) ∧
      (run okPeriph [Op.set 1 2 3, Op.boot] State.initial).state.s_inited = true ∧
      (step okPeriph Op.ready (run okPeriph [Op.set 1 2 3, Op.boot] State.initial).state =
          step okPeriph (color_set Op.ready)
            (run okPeriph [Op.set 1 2 3, Op.boot] State.initial).state ∧
        (∃ r g b, color_set Op.ready = Op.set r g b) ∧
        (run okPeriph [Op.set 1 2 3, Op.boot] State.initial).state.s_inited = true ∧
        (if !(run okPeriph [Op.set 1 2 3, Op.boot] State.initial).state.s_inited then
            ws2812_init okPeriph (run okPeriph [Op.set 1 2 3, Op.boot] State.initial).state
          else .ok (run okPeriph [Op.set 1 2 3, Op.boot] State.initial).state) =
          .ok (run okPeriph [Op.set 1 2 3, Op.boot] State.initial).state) :=
  ⟨⟨rfl, rfl, rfl, rfl⟩,
    (facade_flag_implies_driver_flag okPeriph [Op.set 1 2 3, Op.boot]).1 rfl,
    (facade_flag_implies_driver_flag okPeriph [Op.set 1 2 3, Op.boot]).2 _ Op.ready _ rfl rfl
      rfl⟩

/-! ## Frames along call sequences -/

theorem grb_frame_well_formed (x y z : Nat) (w : rmt_symbol_word_t)
    (hw : w ∈ grb_frame x y z) :
    well_formed w ∧ w.duration0 ≠ 0 ∧ w.duration1 ≠ 0 := by
  simp only [grb_frame, List.mem_flatMap, List.mem_map] at hw
  obtain ⟨byte, -, k, -, rfl⟩ := hw
  split_ifs <;> simp [well_formed]

theorem frames_no_frame (evs : List Event) (h : ∀ e ∈ evs, e.frame = none) :
    frames evs = [] := by
  unfold frames
  rw [List.filterMap_eq_nil_iff]
  exact h

theorem ws2812_set_frames_shape (env : Periph) (r g b : Nat) (s : State) :
    frames (ws2812_set env r g b s).state.trace = frames s.trace ∨
      ∃ x y z, frames (ws2812_set env r g b s).state.trace =
        frames s.trace ++ [grb_frame x y z] := by
  rcases ws2812_set_frames env r g b s with h | ⟨-, h⟩
  · exact Or.inr ⟨_, _, _, h⟩
  · exact Or.inl h

theorem facade_frames_any (env : Periph) (r g b : Nat) (s : State) :
    frames ((led_init_once env s).bind (ws2812_set env r g b)).state.trace = frames s.trace ∨
      ∃ x y z, frames ((led_init_once env s).bind (ws2812_set env r g b)).state.trace =
        frames s.trace ++ [grb_frame x y z] := by
  cases hf : s.inited with
  | true =>
    rw [led_init_once_done env s hf]
    simp only [Result.bind]
    exact ws2812_set_frames_shape env r g b s
  | false =>
    rw [facade_first env r g b s hf]
    obtain ⟨ievs, ht, hfr, -⟩ := ws2812_init_trace env s
    have hnil := frames_no_frame ievs hfr
    cases hA : ws2812_init env s with
    | ok s0 =>
      rw [hA] at ht
      simp only [Result.state] at ht
      have e0 : frames s0.trace = frames s.trace := by
        rw [ht, frames_append, hnil, List.append_nil]
      simp only [Result.bind]
      rcases ws2812_set_frames_shape env r g b
        { ws2812_set_brightness LED_BRIGHTNESS s0 with inited := true } with h | ⟨x, y, z, h⟩
      · left
        rw [h]
        exact e0
      · refine Or.inr ⟨x, y, z, ?_⟩
        rw [h]
        show frames s0.trace ++ [grb_frame x y z] = frames s.trace ++ [grb_frame x y z]
        rw [e0]
    | abort s0 =>
      rw [hA] at ht
      simp only [Result.state] at ht
      simp only [Result.bind, Result.state]
      left
      rw [ht, frames_append, hnil, List.append_nil]

theorem step_frames (env : Periph) (op : Op) (s : State) :
    frames (step env op s).state.trace = frames s.trace ∨
      ∃ x y z, frames (step env op s).state.trace = frames s.trace ++ [grb_frame x y z] := by
  cases op with
  | init =>
    obtain ⟨ievs, ht, hfr, -⟩ := ws2812_init_trace env s
    left
    simp only [step]
    rw [ht, frames_append, frames_no_frame ievs hfr, List.append_nil]
  | set r g b => exact ws2812_set_frames_shape env r g b s
  | set_brightness x => exact Or.inl rfl
  | boot => exact facade_frames_any env 255 0 0 s
  | ready => exact facade_frames_any env 0 255 0 s

theorem run_frames (env : Periph) (ops : List Op) :
    ∀ s : State, ∀ f ∈ frames (run env ops s).state.trace,
      f ∈ frames s.trace ∨ ∃ x y z, f = grb_frame x y z := by
  induction ops with
  | nil => intro s f hf; exact Or.inl hf
  | cons op rest ih =>
    intro s f hf
    have hs := step_frames env op s
    simp only [run] at hf
    have key : ∀ s1, (step env op s).state = s1 → f ∈ frames s1.trace →
        f ∈ frames s.trace ∨ ∃ x y z, f = grb_frame x y z := by
      intro s1 e hm
      rw [e] at hs
      rcases hs with h | ⟨x, y, z, h⟩
      · rw [h] at hm
        exact Or.inl hm
      · rw [h] at hm
        rcases List.mem_append.1 hm with hm | hm
        · exact Or.inl hm
        · exact Or.inr ⟨x, y, z, List.mem_singleton.1 hm⟩
    cases hA : step env op s with
    | ok s1 =>
      rw [hA] at hf
      simp only [Result.bind] at hf
      rcases ih s1 f hf with h | h
      · exact key s1 (by rw [hA]; rfl) h
      · exact Or.inr h
    | abort s1 =>
      rw [hA] at hf
      simp only [Result.bind, Result.state] at hf
      exact key s1 (by rw [hA]; rfl) hf

/-- C16: every symbol `ws2812_set` leaves in `symbols[0..23]` is well formed
(first half level 1, second half level 0, durations (4, 8) or (7, 6) ticks),
so none has a zero duration; hence every frame a `ws2812_set` call hands to the
transmitter, and every frame transmitted along any sequence of public calls
from process start, has 24 well-formed symbols without a zero duration. -/
theorem frame_symbols_well_formed (env : Periph) (r g b : Nat) (s : State) (ops : List Op) :
    (∀ j, j < 24 →
        well_formed (build_symbols s (env.uninit s.trace) r g b j) ∧
          (build_symbols s (env.uninit s.trace) r g b j).duration0 ≠ 0 ∧
          (build_symbols s (env.uninit s.trace) r g b j).duration1 ≠ 0) ∧
      (∀ f ∈ frames (ws2812_set env r g b s).state.trace,
        f ∈ frames s.trace ∨
          (f.length = 24 ∧ ∀ w ∈ f, well_formed w ∧ w.duration0 ≠ 0 ∧ w.duration1 ≠ 0)) ∧
      (∀ f ∈ frames (run env ops State.initial).state.trace,
        f.length = 24 ∧ ∀ w ∈ f, well_formed w ∧ w.duration0 ≠ 0 ∧ w.duration1 ≠ 0) := by
  refine ⟨?_, ?_, ?_⟩
  · intro j hj
    apply grb_frame_well_formed (scale s g) (scale s r) (scale s b)
    rw [← build_symbols_frame s (env.uninit s.trace) r g b]
    exact List.mem_map.2 ⟨j, List.mem_range.2 hj, rfl⟩
  · intro f hf
    rcases ws2812_set_frames_shape env r g b s with h | ⟨x, y, z, h⟩
    · rw [h] at hf
      exact Or.inl hf
    · rw [h] at hf
      rcases List.mem_append.1 hf with hm | hm
      · exact Or.inl hm
      · rw [List.mem_singleton.1 hm]
        exact Or.inr ⟨grb_frame_length x y z, fun w hw => grb_frame_well_formed x y z w hw⟩
  · intro f hf
    rcases run_frames env ops State.initial f hf with h | ⟨x, y, z, h⟩
    · simp [State.initial, frames] at h
    · rw [h]
      exact ⟨grb_frame_length x y z, fun w hw => grb_frame_well_formed x y z w hw⟩

theorem frame_symbols_well_formed_witness :
    (5 < 24 ∧
        grb_frame 20 10 30 ∈ frames (ws2812_set okPeriph 10 20 30 State.initial).state.trace ∧
        grb_frame 0 32 0 ∈
          frames (run okPeriph [Op.boot, Op.ready] State.initial).state.trace) ∧
      (well_formed (build_symbols State.initial (okPeriph.uninit State.initial.trace)
            10 20 30 5) ∧
        (build_symbols State.initial (okPeriph.uninit State.initial.trace)
            10 20 30 5).duration0 ≠ 0 ∧
        (build_symbols State.initial (okPeriph.uninit State.initial.trace)
            10 20 30 5).duration1 ≠ 0) ∧
      (grb_frame 20 10 30 ∈ frames State.initial.trace ∨
        ((grb_frame 20 10 30).length = 24 ∧
          ∀ w ∈ grb_frame 20 10 30, well_formed w ∧ w.duration0 ≠ 0 ∧ w.duration1 ≠ 0)) ∧
      ((grb_frame 0 32 0).length = 24 ∧
        ∀ w ∈ grb_frame 0 32 0, well_formed w ∧ w.duration0 ≠ 0 ∧ w.duration1 ≠ 0) :=
  ⟨⟨by decide, by decide, by decide⟩,
    (frame_symbols_well_formed okPeriph 10 20 30 State.initial [Op.boot, Op.ready]).1 5
      (by decide),
    (frame_symbols_well_formed okPeriph 10 20 30 State.initial [Op.boot, Op.ready]).2.1
      (grb_frame 20 10 30) (by decide),
    (frame_symbols_well_formed okPeriph 10 20 30 State.initial [Op.boot, Op.ready]).2.2
      (grb_frame 0 32 0) (by decide)⟩

/-! ## Brightness along call sequences -/

theorem step_keeps_brightness (env : Periph) (op : Op) (s : State)
    (h : op.keeps_brightness s.inited = true) :
    (step env op s).state.s_brightness = s.s_brightness ∧
      (step env op s).state.inited = s.inited := by
  cases op with
  | init =>
    have hi := ws2812_init_count env _ (Or.inl rfl) s
    exact ⟨hi.2.2.2.1, hi.2.2.1⟩
  | set r g b =>
    have hs := ws2812_set_flags env r g b s
    exact ⟨hs.2.2.2, hs.1⟩
  | set_brightness x => cases h
  | boot =>
    have hf : s.inited = true := h
    have hs := ws2812_set_flags env 255 0 0 s
    simp only [step]
    rw [rcp_led_boot_done env s hf]
    exact ⟨hs.2.2.2, hs.1⟩
  | ready =>
    have hf : s.inited = true := h
    have hs := ws2812_set_flags env 0 255 0 s
    simp only [step]
    rw [rcp_led_ready_done env s hf]
    exact ⟨hs.2.2.2, hs.1⟩

theorem run_keeps_brightness (env : Periph) (ops : List Op) :
    ∀ s : State, (∀ o ∈ ops, o.keeps_brightness s.inited = true) →
      (run env ops s).state.s_brightness = s.s_brightness := by
  induction ops with
  | nil => intro s _; rfl
  | cons op rest ih =>
    intro s h
    have hs := step_keeps_brightness env op s (h op (List.mem_cons_self _ _))
    simp only [run]
    cases hA : step env op s with
    | ok s1 =>
      rw [hA] at hs
      simp only [Result.state] at hs
      simp only [Result.bind]
      rw [ih s1 (fun o ho => by rw [hs.2]; exact h o (List.mem_cons_of_mem _ ho)), hs.1]
    | abort s1 =>
      rw [hA] at hs
      exact hs.1

/-- C19: `ws2812_set` leaves the brightness factor as it is, and the frame it
transmits is determined by `(r, g, b)` and the brightness alone: two calls with
the same arguments made in any two states with the same brightness (whatever
the flags, handles and earlier peripheral calls, under any two succeeding
environments) transmit the same frame, and so do two calls separated by public
calls none of which executes `ws2812_set_brightness`. -/
theorem ws2812_set_frame_from_brightness (env env2 : Periph) (r g b : Nat) (s s2 : State)
    (mid : List Op) :
    (ws2812_set env r g b s).state.s_brightness = s.s_brightness ∧
      (env.allOk → env2.allOk → s2.s_brightness = s.s_brightness →
        ∃ f, frames (ws2812_set env r g b s).state.trace = frames s.trace ++ [f] ∧
          frames (ws2812_set env2 r g b s2).state.trace = frames s2.trace ++ [f]) ∧
      (env.allOk → (∀ o ∈ mid, o.keeps_brightness s.inited = true) →
        ∃ s1 s3 s4 f, ws2812_set env r g b s = .ok s1 ∧ run env mid s1 = .ok s3 ∧
          ws2812_set env r g b s3 = .ok s4 ∧
          frames s1.trace = frames s.trace ++ [f] ∧
          frames s4.trace = frames s3.trace ++ [f]) := by
  refine ⟨(ws2812_set_flags env r g b s).2.2.2, ?_, ?_⟩
  · intro hok hok2 hb
    obtain ⟨s1, h1, -, -, -, h5⟩ := ws2812_set_returns env hok r g b s
    obtain ⟨t1, k1, -, -, -, k5⟩ := ws2812_set_returns env2 hok2 r g b s2
    refine ⟨grb_frame (scale s g) (scale s r) (scale s b), ?_, ?_⟩
    · rw [h1]
      exact h5
    · rw [k1]
      simp only [Result.state]
      rw [k5, scale_congr s s2 hb, scale_congr s s2 hb, scale_congr s s2 hb]
  · intro hok hmid
    obtain ⟨s1, h1, -, h3, h4, h5⟩ := ws2812_set_returns env hok r g b s
    have hr := run_returns env hok mid s1
    have hb := run_keeps_brightness env mid s1 (fun o ho => by rw [h3]; exact hmid o ho)
    cases hA : run env mid s1 with
    | ok s3 =>
      rw [hA] at hb
      simp only [Result.state] at hb
      obtain ⟨s4, k1, -, -, -, k5⟩ := ws2812_set_returns env hok r g b s3
      have e : s3.s_brightness = s.s_brightness := by rw [hb, h4]
      refine ⟨s1, s3, s4, grb_frame (scale s g) (scale s r) (scale s b), h1, hA, k1, h5, ?_⟩
      rw [k5, scale_congr s s3 e, scale_congr s s3 e, scale_congr s s3 e]
    | abort s3 =>
      rw [hA] at hr
      cases hr

theorem ws2812_set_frame_from_brightness_witness :
    (okPeriph.allOk ∧ okPeriph.allOk ∧
        (run okPeriph [Op.boot] State.initial).state.s_brightness =
          (ws2812_set_brightness 32 State.initial).s_brightness ∧
        (∀ o ∈ [Op.init, Op.set 1 2 3],
          o.keeps_brightness (ws2812_set_brightness 32 State.initial).inited = true)) ∧
      (∃ f, frames (ws2812_set okPeriph 10 20 30
              (ws2812_set_brightness 32 State.initial)).state.trace =
            frames (ws2812_set_brightness 32 State.initial).trace ++ [f] ∧
          frames (ws2812_set okPeriph 10 20 30
              (run okPeriph [Op.boot] State.initial).state).state.trace =
            frames (run okPeriph [Op.boot] State.initial).state.trace ++ [f]) ∧
      (∃ s1 s3 s4 f,
        ws2812_set okPeriph 10 20 30 (ws2812_set_brightness 32 State.initial) = .ok s1 ∧
          run okPeriph [Op.init, Op.set 1 2 3] s1 = .ok s3 ∧
          ws2812_set okPeriph 10 20 30 s3 = .ok s4 ∧
          frames s1.trace = frames (ws2812_set_brightness 32 State.initial).trace ++ [f] ∧
          frames s4.trace = frames s3.trace ++ [f]) :=
  ⟨⟨fun _ _ => rfl, fun _ _ => rfl, rfl, by decide⟩,
    (ws2812_set_frame_from_brightness okPeriph okPeriph 10 20 30
      (ws2812_set_brightness 32 State.initial) (run okPeriph [Op.boot] State.initial).state
      [Op.init, Op.set 1 2 3]).2.1 (fun _ _ => rfl) (fun _ _ => rfl) rfl,
    (ws2812_set_frame_from_brightness okPeriph okPeriph 10 20 30
      (ws2812_set_brightness 32 State.initial) (run okPeriph [Op.boot] State.initial).state
      [Op.init, Op.set 1 2 3]).2.2 (fun _ _ => rfl) (by decide)⟩

end WS2812
